import Mathlib

/-!
# Hostname admission hooks

A shallow embedding of two pod-admission hooks:

* `pkg/kubelet/lifecycle/ebay/ebay.go`: the kubelet-side handler
  `waitForHostnameAdmitHandler.Admit`, which defers a pending pod until its
  `spec.hostname` is populated when an annotation asks for it;
* `plugin/pkg/admission/hostnamesync/admission.go`: the API-server-side plugin
  `hostnameSync.Admit`, which copies `metadata.name` (generating it if needed)
  into `spec.hostname` when an annotation asks for it.

Go values are embedded as follows.  A Go `string` is a Lean `String`.  A Go
`map[string]string` that may be nil is an `Option` of an association list: `none`
is the nil map, and indexing finds the first pair with the key.  A Go method that
mutates the pod through a pointer and returns an error is a function returning
the error (if any) together with the object as it is after the call.
-/

/-! ## Go standard library: `strconv` -/

namespace strconv

/-- The Go error value `*strconv.NumError`: the failing function, the input and
the underlying error text. -/
structure NumError where
  Func : String
  Num : String
  Err : String
  deriving DecidableEq, Repr

/-- The text of `strconv.ErrSyntax`. -/
def ErrSyntax : String := "invalid syntax"

/-- The method `(*NumError).Error`; `Quote` is `strconv.Quote`, taken as a parameter. -/
def NumError.Error (Quote : String → String) (e : NumError) : String :=
  "strconv." ++ e.Func ++ ": " ++ "parsing " ++ Quote e.Num ++ ": " ++ e.Err

/-- Modelled from the spec: `strconv.ParseBool` belongs to the Go standard library and
is not among the sources.  The spec asks that the value "parse as a boolean
("true"/"false" and standard boolean-literal variants)"; the variants are the ones
the Go library accepts: 1, t, T, TRUE, true, True and 0, f, F, FALSE, false, False.
Any other string is a syntax error that records the input. -/
def ParseBool (str : String) : Except NumError Bool :=
  if str = "1" ∨ str = "t" ∨ str = "T" ∨ str = "TRUE" ∨ str = "true" ∨ str = "True" then
    .ok true
  else if str = "0" ∨ str = "f" ∨ str = "F" ∨ str = "FALSE" ∨ str = "false" ∨ str = "False" then
    .ok false
  else
    .error ⟨"ParseBool", str, ErrSyntax⟩

end strconv

/-! ## Go maps -/

/-- A Go `map[string]string` value that is not nil. -/
abbrev GoMap := List (String × String)

/-- The two-valued index expression `v, ok := m[key]`: the value and presence flag;
an absent key yields the zero value `""` and `false`. -/
def GoMap.index (m : GoMap) (key : String) : String × Bool :=
  match m.lookup key with
  | some v => (v, true)
  | none => ("", false)

/-! ## The pod object (the fields the two hooks read or write, and the
fields the tests inspect) -/

/-- Container of a pod spec (`api.Container`). -/
structure Container where
  Name : String := ""
  Image : String := ""
  ImagePullPolicy : String := ""
  deriving DecidableEq, Repr

/-- Object metadata (`metav1.ObjectMeta`). -/
structure ObjectMeta where
  Name : String := ""
  GenerateName : String := ""
  Namespace : String := ""
  Annotations : Option GoMap := none
  deriving DecidableEq, Repr

/-- Pod specification (`PodSpec`). -/
structure PodSpec where
  Hostname : String := ""
  Subdomain : String := ""
  Containers : List Container := []
  deriving DecidableEq, Repr

/-- Pod status (`PodStatus`); `PodPhase` is a string type in Go. -/
structure PodStatus where
  Phase : String := ""
  deriving DecidableEq, Repr

/-- A pod.  Both `v1.Pod` (read by the kubelet handler) and `api.Pod` (written by the
admission plugin) are embedded by this one structure, as they agree on these fields. -/
structure Pod where
  ObjectMeta : ObjectMeta := {}
  Spec : PodSpec := {}
  Status : PodStatus := {}
  deriving DecidableEq, Repr

/-- The constant `v1.PodPending`. -/
def PodPending : String := "Pending"

/-- The constant `v1.PodRunning`. -/
def PodRunning : String := "Running"

/-! ## `pkg/kubelet/lifecycle/ebay/ebay.go` -/

namespace ebay

/-- The struct `lifecycle.PodAdmitAttributes` (the pod being evaluated). -/
structure PodAdmitAttributes where
  Pod : Pod
  deriving DecidableEq, Repr

/-- The struct `lifecycle.PodAdmitResult`; the Go zero value of `Reason` and
`Message` is the empty string. -/
structure PodAdmitResult where
  Admit : Bool
  Reason : String := ""
  Message : String := ""
  deriving DecidableEq, Repr

def WaitForHostnameAnnotation : String := "naming.tess.io/wait-for-hostname"

def WaitForHostnameReason : String := "WaitForHostname"

/-- The method `(*waitForHostnameAdmitHandler).Admit` (ebay.go, lines 23-69).  Logging
calls are omitted.  `Quote` is `strconv.Quote`, which renders the verb `%q` and the
input inside the parse error. -/
def waitForHostnameAdmitHandler.Admit (Quote : String → String)
    (attrs : PodAdmitAttributes) : PodAdmitResult :=
  if attrs.Pod.Status.Phase ≠ PodPending then
    { Admit := true }
  else
    match attrs.Pod.ObjectMeta.Annotations with
    | none => { Admit := true }
    | some annotations =>
      if !(annotations.index WaitForHostnameAnnotation).2 then
        { Admit := true }
      else
        match strconv.ParseBool (annotations.index WaitForHostnameAnnotation).1 with
        | .error err =>
          { Admit := false
            Reason := WaitForHostnameReason
            Message := "Error parsing value for annotation " ++ Quote WaitForHostnameAnnotation
              ++ ": " ++ err.Error Quote }
        | .ok wait =>
          if !wait then
            { Admit := true }
          else if attrs.Pod.Spec.Hostname = "" then
            { Admit := false
              Reason := WaitForHostnameReason
              Message := "Pod spec.hostname not available yet" }
          else
            { Admit := true }

end ebay

/-! ## Admission requests (`k8s.io/apiserver/pkg/admission`, `schema`, `runtime`) -/

namespace schema

/-- The struct `schema.GroupResource`. -/
structure GroupResource where
  Group : String
  Resource : String
  deriving DecidableEq, Repr

/-- The struct `schema.GroupVersionResource`. -/
structure GroupVersionResource where
  Group : String
  Version : String
  Resource : String
  deriving DecidableEq, Repr

/-- The method `GroupVersionResource.GroupResource`. -/
def GroupVersionResource.GroupResource (gvr : GroupVersionResource) : GroupResource :=
  { Group := gvr.Group, Resource := gvr.Resource }

/-- The method `GroupResource.WithVersion`. -/
def GroupResource.WithVersion (gr : GroupResource) (version : String) : GroupVersionResource :=
  { Group := gr.Group, Version := version, Resource := gr.Resource }

end schema

namespace api

/-- The constant `api.GroupName`: the core API group has the empty name. -/
def GroupName : String := ""

/-- The function `api.Resource`: a resource of the core group. -/
def Resource (resource : String) : schema.GroupResource :=
  { Group := GroupName, Resource := resource }

end api

namespace admission

/-- The type `admission.Operation`. -/
inductive Operation where
  | Create
  | Update
  | Delete
  | Connect
  deriving DecidableEq, Repr

/-- A `runtime.Object` as the plugin sees it: a `*api.Pod`, or an object of any other
Go type (such as `*api.Service`), identified here by the name of its kind. -/
inductive Object where
  | pod (p : Pod)
  | other (kind : String)
  deriving DecidableEq, Repr

/-- The record behind `admission.Attributes` (built by `admission.NewAttributesRecord`),
with the fields the plugin and its registration depend on. -/
structure Attributes where
  object : Object
  resource : schema.GroupVersionResource
  subresource : String
  operation : Operation
  deriving DecidableEq, Repr

def Attributes.GetObject (a : Attributes) : Object := a.object

def Attributes.GetResource (a : Attributes) : schema.GroupVersionResource := a.resource

def Attributes.GetSubresource (a : Attributes) : String := a.subresource

def Attributes.GetOperation (a : Attributes) : Operation := a.operation

end admission

namespace meta

/-- The function `meta.Accessor` applied to a `*api.Pod`: a pod embeds its `ObjectMeta`,
which implements the accessor interface, so the first case of the type switch returns
it and no error.  The accessor aliases the pod's own metadata. -/
def Accessor (pod : Pod) : Except String ObjectMeta :=
  .ok pod.ObjectMeta

end meta

/-! ## `plugin/pkg/admission/hostnamesync/admission.go` -/

namespace hostnamesync

def Annotation : String := "pod.tess.io/hostname-sync"

/-- An argument of a formatting call, kept unrendered. -/
inductive FmtArg where
  | str (s : String)
  | pod (p : Pod)
  deriving DecidableEq, Repr

/-- The errors `hostnameSync.Admit` can return: `apierrors.NewBadRequest(reason)` and
`fmt.Errorf(format, args...)`, the latter kept as its format string and arguments. -/
inductive Error where
  | NewBadRequest (reason : String)
  | Errorf (format : String) (args : List FmtArg)
  deriving DecidableEq, Repr

/-- What a call of `hostnameSync.Admit` leaves behind: the returned error (`none` is the
Go `nil`), the request's object as it is after the call (the pod is mutated in place
through a pointer), and the arguments of the calls made to the name generator, oldest
first. -/
structure AdmitResult where
  err : Option Error
  object : admission.Object
  generated : List String
  deriving DecidableEq, Repr

/-- The method `(*hostnameSync).Admit` (admission.go, lines 48-106).  `GenerateName` is
the collaborator `podregistry.Strategy.GenerateName`; the receiver is never used and is
left out. -/
def hostnameSync.Admit (GenerateName : String → String)
    (attributes : admission.Attributes) : AdmitResult :=
  if attributes.GetSubresource.length ≠ 0
      ∨ attributes.GetResource.GroupResource ≠ api.Resource "pods" then
    { err := none, object := attributes.GetObject, generated := [] }
  else
    match attributes.GetObject with
    | .other kind =>
      { err := some (.NewBadRequest
          "Resource was marked with kind Pod but was unable to be converted")
        object := .other kind, generated := [] }
    | .pod pod =>
      match meta.Accessor pod with
      | .error err =>
        { err := some (.Errorf "error creating metadata accessor for pod %v: %v"
            [.pod pod, .str err])
          object := .pod pod, generated := [] }
      | .ok metadata =>
        if pod.Spec.Subdomain = "" ∨ pod.Spec.Hostname ≠ "" then
          { err := none, object := .pod pod, generated := [] }
        else
          match metadata.Annotations with
          | none => { err := none, object := .pod pod, generated := [] }
          | some ann =>
            if !(ann.index Annotation).2 then
              { err := none, object := .pod pod, generated := [] }
            else
              match strconv.ParseBool (ann.index Annotation).1 with
              | .error _ =>
                { err := some (.Errorf "could not parse annotation: %q" [.str Annotation])
                  object := .pod pod, generated := [] }
              | .ok b =>
                if !b then
                  { err := none, object := .pod pod, generated := [] }
                else
                  let name := metadata.Name
                  if name.length = 0 then
                    let generateName := metadata.GenerateName
                    if generateName.length = 0 then
                      { err := some (.Errorf
                          "no name from which to generate hostname for pod %v" [.pod pod])
                        object := .pod pod, generated := [] }
                    else
                      let name := GenerateName generateName
                      { err := none
                        object := .pod { pod with
                          ObjectMeta := { pod.ObjectMeta with Name := name }
                          Spec := { pod.Spec with Hostname := name } }
                        generated := [generateName] }
                  else
                    { err := none
                      object := .pod { pod with Spec := { pod.Spec with Hostname := name } }
                      generated := [] }

end hostnamesync

/-! ## Plugin registration (`NewHostnameSync`) and the admission pipeline -/

namespace admission

/-- Modelled from the spec: the type `admission.Handler` is declared outside the sources;
it records the operations a plugin "applies to" (the set filled by `NewHandler`). -/
structure Handler where
  operations : List Operation
  deriving DecidableEq, Repr

/-- Modelled from the spec: the constructor `admission.NewHandler(ops...)`, outside the
sources: a handler for exactly the listed operations. -/
def NewHandler (ops : List Operation) : Handler :=
  { operations := ops }

/-- Modelled from the spec: the method `Handler.Handles`, outside the sources: whether
the plugin applies to the operation, that is, whether it was listed at construction. -/
def Handler.Handles (h : Handler) (operation : Operation) : Bool :=
  decide (operation ∈ h.operations)

end admission

namespace hostnamesync

/-- The struct `hostnameSync`: an embedded `*admission.Handler`. -/
structure hostnameSync where
  Handler : admission.Handler
  deriving DecidableEq, Repr

/-- The function `NewHostnameSync` (admission.go, lines 108-113): "pod names cannot
change so no need to handle anything other than create". -/
def NewHostnameSync : hostnameSync :=
  { Handler := admission.NewHandler [admission.Operation.Create] }

/-- Modelled from the spec: the pod-admission pipeline, outside the sources, which runs a
plugin only on the operations it applies to ("Only applies to create operations on the
pod resource itself"); on any other operation the plugin is skipped, which leaves the
object as it is and reports no error. -/
def pipelineAdmit (plugin : hostnameSync) (GenerateName : String → String)
    (attributes : admission.Attributes) : AdmitResult :=
  if !plugin.Handler.Handles attributes.GetOperation then
    { err := none, object := attributes.GetObject, generated := [] }
  else
    hostnameSync.Admit GenerateName attributes

end hostnamesync

/-! ## Requests of `admission_test.go` -/

namespace hostnamesync

/-- The request every pod test builds: `admission.NewAttributesRecord(&pod, nil,
api.Kind("Pod").WithVersion("version"), pod.Namespace, pod.Name,
api.Resource("pods").WithVersion("version"), "", admission.Create, nil)`. -/
def createPodRequest (pod : Pod) : admission.Attributes :=
  { object := .pod pod
    resource := (api.Resource "pods").WithVersion "version"
    subresource := ""
    operation := .Create }

/-- A name generator of the shape of `names.SimpleNameGenerator`: the base followed by a
five-character suffix (fixed here, random there). -/
def suffixGenerator (base : String) : String :=
  base ++ "x7k2p"

end hostnamesync

/-! ## Properties of the wait-for-hostname gate -/

open ebay hostnamesync

/-- Indexing a map reports presence exactly when the key has a binding. -/
theorem GoMap.index_snd (m : GoMap) (key : String) :
    (m.index key).2 = (m.lookup key).isSome := by
  unfold GoMap.index
  cases m.lookup key <;> rfl

/-- Indexing a map at a bound key yields the bound value. -/
theorem GoMap.index_of_lookup (m : GoMap) (key v : String) (h : m.lookup key = some v) :
    m.index key = (v, true) := by
  unfold GoMap.index
  rw [h]

/-- Indexing a map at an unbound key yields the zero value and `false`. -/
theorem GoMap.index_of_lookup_none (m : GoMap) (key : String) (h : m.lookup key = none) :
    m.index key = ("", false) := by
  unfold GoMap.index
  rw [h]

/-- The parser never fails on its own output classes: a string is either accepted as
`true`, accepted as `false`, or rejected with a syntax error recording the input. -/
theorem strconv.ParseBool_cases (s : String) :
    strconv.ParseBool s = .ok true ∨ strconv.ParseBool s = .ok false
      ∨ strconv.ParseBool s = .error ⟨"ParseBool", s, strconv.ErrSyntax⟩ := by
  unfold strconv.ParseBool
  split
  · exact Or.inl rfl
  · split
    · exact Or.inr (Or.inl rfl)
    · exact Or.inr (Or.inr rfl)

/-- Gate on a pod that is not pending. -/
theorem gate_not_pending (Quote : String → String) (attrs : PodAdmitAttributes)
    (h : attrs.Pod.Status.Phase ≠ PodPending) :
    waitForHostnameAdmitHandler.Admit Quote attrs = { Admit := true } := by
  unfold waitForHostnameAdmitHandler.Admit
  rw [if_pos h]

/-- Gate on a pending pod with a nil annotation map. -/
theorem gate_nil_annotations (Quote : String → String) (attrs : PodAdmitAttributes)
    (hA : attrs.Pod.ObjectMeta.Annotations = none) :
    waitForHostnameAdmitHandler.Admit Quote attrs = { Admit := true } := by
  unfold waitForHostnameAdmitHandler.Admit
  split
  · rfl
  · rw [hA]

/-- Gate on a pending pod whose map lacks the key. -/
theorem gate_key_absent (Quote : String → String) (attrs : PodAdmitAttributes) (ann : GoMap)
    (hA : attrs.Pod.ObjectMeta.Annotations = some ann)
    (hK : ann.lookup WaitForHostnameAnnotation = none) :
    waitForHostnameAdmitHandler.Admit Quote attrs = { Admit := true } := by
  unfold waitForHostnameAdmitHandler.Admit
  split
  · rfl
  · rw [hA]
    simp [GoMap.index_of_lookup_none ann _ hK]

/-- Gate on a pending pod whose annotation value is bound: the result is decided by
the parse of the value and by the hostname. -/
theorem gate_key_present (Quote : String → String) (attrs : PodAdmitAttributes) (ann : GoMap)
    (v : String) (hP : attrs.Pod.Status.Phase = PodPending)
    (hA : attrs.Pod.ObjectMeta.Annotations = some ann)
    (hK : ann.lookup WaitForHostnameAnnotation = some v) :
    waitForHostnameAdmitHandler.Admit Quote attrs =
      match strconv.ParseBool v with
      | .error err =>
        { Admit := false, Reason := WaitForHostnameReason
          Message := "Error parsing value for annotation " ++ Quote WaitForHostnameAnnotation
            ++ ": " ++ err.Error Quote }
      | .ok false => { Admit := true }
      | .ok true =>
        if attrs.Pod.Spec.Hostname = "" then
          { Admit := false, Reason := WaitForHostnameReason
            Message := "Pod spec.hostname not available yet" }
        else { Admit := true } := by
  unfold waitForHostnameAdmitHandler.Admit
  rw [if_neg (by simpa using hP), hA]
  simp only [GoMap.index_of_lookup ann _ v hK]
  rcases strconv.ParseBool_cases v with h | h | h <;> rw [h] <;> simp

/-- C1: the gate returns `Admit = false` exactly when the pod is Pending, its annotations
hold the key "naming.tess.io/wait-for-hostname", and the value either does not parse as
a boolean or parses as true while `spec.hostname` is empty; in every other case it
returns `Admit = true`.  A nil annotation map and an empty one both admit. -/
theorem gate_rejects_iff (Quote : String → String) (attrs : PodAdmitAttributes) :
    ((waitForHostnameAdmitHandler.Admit Quote attrs).Admit = false ↔
        attrs.Pod.Status.Phase = PodPending ∧
        ∃ ann v, attrs.Pod.ObjectMeta.Annotations = some ann ∧
          ann.lookup WaitForHostnameAnnotation = some v ∧
          ((∃ e, strconv.ParseBool v = .error e) ∨
            (strconv.ParseBool v = .ok true ∧ attrs.Pod.Spec.Hostname = "")))
    ∧ ((waitForHostnameAdmitHandler.Admit Quote attrs).Admit = true ↔
        ¬ (attrs.Pod.Status.Phase = PodPending ∧
          ∃ ann v, attrs.Pod.ObjectMeta.Annotations = some ann ∧
            ann.lookup WaitForHostnameAnnotation = some v ∧
            ((∃ e, strconv.ParseBool v = .error e) ∨
              (strconv.ParseBool v = .ok true ∧ attrs.Pod.Spec.Hostname = ""))))
    ∧ (waitForHostnameAdmitHandler.Admit Quote
        ⟨{ attrs.Pod with ObjectMeta := { attrs.Pod.ObjectMeta with Annotations := none } }⟩).Admit
        = true
    ∧ (waitForHostnameAdmitHandler.Admit Quote
        ⟨{ attrs.Pod with ObjectMeta := { attrs.Pod.ObjectMeta with Annotations := some [] } }⟩).Admit
        = true := by
  have key : (waitForHostnameAdmitHandler.Admit Quote attrs).Admit = false ↔
      attrs.Pod.Status.Phase = PodPending ∧
      ∃ ann v, attrs.Pod.ObjectMeta.Annotations = some ann ∧
        ann.lookup WaitForHostnameAnnotation = some v ∧
        ((∃ e, strconv.ParseBool v = .error e) ∨
          (strconv.ParseBool v = .ok true ∧ attrs.Pod.Spec.Hostname = "")) := by
    constructor
    · intro hrej
      by_cases hP : attrs.Pod.Status.Phase = PodPending
      · refine ⟨hP, ?_⟩
        cases hA : attrs.Pod.ObjectMeta.Annotations with
        | none =>
          rw [gate_nil_annotations Quote attrs hA] at hrej
          exact absurd hrej (by decide)
        | some ann =>
          cases hK : ann.lookup WaitForHostnameAnnotation with
          | none =>
            rw [gate_key_absent Quote attrs ann hA hK] at hrej
            exact absurd hrej (by decide)
          | some v =>
            refine ⟨ann, v, rfl, hK, ?_⟩
            rw [gate_key_present Quote attrs ann v hP hA hK] at hrej
            rcases strconv.ParseBool_cases v with h | h | h
            · refine Or.inr ⟨h, ?_⟩
              rw [h] at hrej
              by_contra hH
              simp [hH] at hrej
            · rw [h] at hrej
              simp at hrej
            · exact Or.inl ⟨_, h⟩
      · rw [gate_not_pending Quote attrs hP] at hrej
        exact absurd hrej (by decide)
    · rintro ⟨hP, ann, v, hA, hK, hv⟩
      rw [gate_key_present Quote attrs ann v hP hA hK]
      rcases hv with ⟨e, he⟩ | ⟨ht, hH⟩
      · rw [he]
      · rw [ht]
        simp [hH]
  refine ⟨key, ?_, ?_, ?_⟩
  · rw [← key]
    cases (waitForHostnameAdmitHandler.Admit Quote attrs).Admit <;> simp
  · rw [gate_nil_annotations Quote _ rfl]
  · by_cases hP : attrs.Pod.Status.Phase = PodPending
    · rw [gate_key_absent Quote _ [] rfl rfl]
    · rw [gate_not_pending Quote _ (by exact hP)]

/-- C2: a pod whose phase is not Pending is admitted, whatever its annotations and
hostname are. -/
theorem gate_admits_not_pending (Quote : String → String) (attrs : PodAdmitAttributes)
    (h : attrs.Pod.Status.Phase ≠ PodPending) :
    (waitForHostnameAdmitHandler.Admit Quote attrs).Admit = true := by
  rw [gate_not_pending Quote attrs h]

/-- C2, at a Running pod whose annotation does not parse, at a Succeeded pod whose
annotation is "true" with an empty hostname, and at a pod with a phase outside the
enumeration. -/
theorem gate_admits_not_pending_witness :
    (waitForHostnameAdmitHandler.Admit id
        ⟨{ ObjectMeta := { Annotations := some [( WaitForHostnameAnnotation, "not-a-bool")] }
           Status := { Phase := PodRunning } }⟩).Admit = true
    ∧ (waitForHostnameAdmitHandler.Admit id
        ⟨{ ObjectMeta := { Annotations := some [( WaitForHostnameAnnotation, "true")] }
           Spec := { Hostname := "" }
           Status := { Phase := "Succeeded" } }⟩).Admit = true
    ∧ (waitForHostnameAdmitHandler.Admit id
        ⟨{ ObjectMeta := { Annotations := some [( WaitForHostnameAnnotation, "true")] }
           Status := { Phase := "" } }⟩).Admit = true :=
  ⟨gate_admits_not_pending id _ (by decide), gate_admits_not_pending id _ (by decide),
    gate_admits_not_pending id _ (by decide)⟩

/-- C3: on a Pending pod annotated "true" the gate rejects while `spec.hostname` is empty
and admits the same pod once `spec.hostname` is any non-empty string; on a Pending pod
annotated "false" the gate admits whatever `spec.hostname` is. -/
theorem gate_annotation_true_false (Quote : String → String) (pod : Pod) (ann : GoMap)
    (hP : pod.Status.Phase = PodPending) (hA : pod.ObjectMeta.Annotations = some ann) :
    (ann.lookup WaitForHostnameAnnotation = some "true" →
      (waitForHostnameAdmitHandler.Admit Quote
          ⟨{ pod with Spec := { pod.Spec with Hostname := "" } }⟩).Admit = false
      ∧ ∀ h : String, h ≠ "" →
        (waitForHostnameAdmitHandler.Admit Quote
          ⟨{ pod with Spec := { pod.Spec with Hostname := h } }⟩).Admit = true)
    ∧ (ann.lookup WaitForHostnameAnnotation = some "false" →
      ∀ h : String,
        (waitForHostnameAdmitHandler.Admit Quote
          ⟨{ pod with Spec := { pod.Spec with Hostname := h } }⟩).Admit = true) := by
  refine ⟨fun hK => ⟨?_, fun h hh => ?_⟩, fun hK h => ?_⟩
  · rw [gate_key_present Quote _ ann "true" (by exact hP) (by exact hA) hK]
    rfl
  · rw [gate_key_present Quote _ ann "true" (by exact hP) (by exact hA) hK]
    have hT : strconv.ParseBool "true" = .ok true := rfl
    rw [hT]
    simp [hh]
  · rw [gate_key_present Quote _ ann "false" (by exact hP) (by exact hA) hK]
    rfl

/-- C3, at the pods of the handler's test table: annotated "true" without and with the
hostname "host1", and annotated "false" without and with a hostname. -/
theorem gate_annotation_true_false_witness :
    ((waitForHostnameAdmitHandler.Admit id
        ⟨{ ObjectMeta := { Annotations := some [( WaitForHostnameAnnotation, "true")] }
           Status := { Phase := PodPending } }⟩).Admit = false
      ∧ (waitForHostnameAdmitHandler.Admit id
        ⟨{ ObjectMeta := { Annotations := some [( WaitForHostnameAnnotation, "true")] }
           Spec := { Hostname := "host1" }
           Status := { Phase := PodPending } }⟩).Admit = true)
    ∧ ((waitForHostnameAdmitHandler.Admit id
        ⟨{ ObjectMeta := { Annotations := some [( WaitForHostnameAnnotation, "false")] }
           Status := { Phase := PodPending } }⟩).Admit = true
      ∧ (waitForHostnameAdmitHandler.Admit id
        ⟨{ ObjectMeta := { Annotations := some [( WaitForHostnameAnnotation, "false")] }
           Spec := { Hostname := "host1" }
           Status := { Phase := PodPending } }⟩).Admit = true) :=
  ⟨⟨((gate_annotation_true_false id
        { ObjectMeta := { Annotations := some [( WaitForHostnameAnnotation, "true")] }
          Status := { Phase := PodPending } }
        [( WaitForHostnameAnnotation, "true")] rfl rfl).1 rfl).1,
      ((gate_annotation_true_false id
        { ObjectMeta := { Annotations := some [( WaitForHostnameAnnotation, "true")] }
          Status := { Phase := PodPending } }
        [( WaitForHostnameAnnotation, "true")] rfl rfl).1 rfl).2 "host1" (by decide)⟩,
    ⟨(gate_annotation_true_false id
        { ObjectMeta := { Annotations := some [( WaitForHostnameAnnotation, "false")] }
          Status := { Phase := PodPending } }
        [( WaitForHostnameAnnotation, "false")] rfl rfl).2 rfl "",
      (gate_annotation_true_false id
        { ObjectMeta := { Annotations := some [( WaitForHostnameAnnotation, "false")] }
          Status := { Phase := PodPending } }
        [( WaitForHostnameAnnotation, "false")] rfl rfl).2 rfl "host1"⟩⟩

/-- C4: every rejection carries the reason "WaitForHostname"; a rejection for a value that
does not parse has the message "Error parsing value for annotation " followed by the
quoted key "naming.tess.io/wait-for-hostname", ": " and the text of the parse error; a
rejection for an empty `spec.hostname` has the message "Pod spec.hostname not available
yet"; every admitting result has an empty reason and an empty message. -/
theorem gate_reason_and_message (Quote : String → String) (attrs : PodAdmitAttributes) :
    ((waitForHostnameAdmitHandler.Admit Quote attrs).Admit = false →
      (waitForHostnameAdmitHandler.Admit Quote attrs).Reason = "WaitForHostname")
    ∧ ((waitForHostnameAdmitHandler.Admit Quote attrs).Admit = true →
      (waitForHostnameAdmitHandler.Admit Quote attrs).Reason = ""
        ∧ (waitForHostnameAdmitHandler.Admit Quote attrs).Message = "")
    ∧ (∀ (ann : GoMap) (v : String) (e : strconv.NumError),
      attrs.Pod.Status.Phase = PodPending →
      attrs.Pod.ObjectMeta.Annotations = some ann →
      ann.lookup WaitForHostnameAnnotation = some v →
      strconv.ParseBool v = .error e →
      (waitForHostnameAdmitHandler.Admit Quote attrs).Admit = false
        ∧ e.Error Quote = "strconv.ParseBool: parsing " ++ Quote v ++ ": invalid syntax"
        ∧ (waitForHostnameAdmitHandler.Admit Quote attrs).Message =
          "Error parsing value for annotation " ++ Quote "naming.tess.io/wait-for-hostname"
            ++ ": " ++ e.Error Quote)
    ∧ (∀ (ann : GoMap) (v : String),
      attrs.Pod.Status.Phase = PodPending →
      attrs.Pod.ObjectMeta.Annotations = some ann →
      ann.lookup WaitForHostnameAnnotation = some v →
      strconv.ParseBool v = .ok true →
      attrs.Pod.Spec.Hostname = "" →
      (waitForHostnameAdmitHandler.Admit Quote attrs).Admit = false
        ∧ (waitForHostnameAdmitHandler.Admit Quote attrs).Message =
          "Pod spec.hostname not available yet") := by
  have shape : waitForHostnameAdmitHandler.Admit Quote attrs = { Admit := true }
      ∨ ((waitForHostnameAdmitHandler.Admit Quote attrs).Admit = false
        ∧ (waitForHostnameAdmitHandler.Admit Quote attrs).Reason = "WaitForHostname") := by
    by_cases hP : attrs.Pod.Status.Phase = PodPending
    · cases hA : attrs.Pod.ObjectMeta.Annotations with
      | none => exact Or.inl (gate_nil_annotations Quote attrs hA)
      | some ann =>
        cases hK : ann.lookup WaitForHostnameAnnotation with
        | none => exact Or.inl (gate_key_absent Quote attrs ann hA hK)
        | some v =>
          rw [gate_key_present Quote attrs ann v hP hA hK]
          rcases strconv.ParseBool_cases v with h | h | h <;> rw [h]
          · by_cases hH : attrs.Pod.Spec.Hostname = ""
            · rw [if_pos hH]
              exact Or.inr ⟨rfl, rfl⟩
            · rw [if_neg hH]
              exact Or.inl rfl
          · exact Or.inl rfl
          · exact Or.inr ⟨rfl, rfl⟩
    · exact Or.inl (gate_not_pending Quote attrs hP)
  refine ⟨fun hrej => ?_, fun hadm => ?_, fun ann v e hP hA hK he => ?_,
    fun ann v hP hA hK ht hH => ?_⟩
  · rcases shape with h | h
    · rw [h] at hrej
      exact absurd hrej (by decide)
    · exact h.2
  · rcases shape with h | h
    · rw [h]
      exact ⟨rfl, rfl⟩
    · rw [h.1] at hadm
      exact absurd hadm (by decide)
  · rw [gate_key_present Quote attrs ann v hP hA hK, he]
    refine ⟨rfl, ?_, rfl⟩
    rcases strconv.ParseBool_cases v with h | h | h
    · rw [h] at he
      exact absurd he (by simp)
    · rw [h] at he
      exact absurd he (by simp)
    · rw [h] at he
      cases he
      apply String.ext
      simp [strconv.NumError.Error, strconv.ErrSyntax, String.data_append]
  · rw [gate_key_present Quote attrs ann v hP hA hK, ht, if_pos hH]
    exact ⟨rfl, rfl⟩

/-- C4, at the Pending pod of the handler's test table whose annotation is "not-a-bool",
with a quoting function that wraps its argument in double quotes (as `strconv.Quote`
does for these two strings): the gate rejects with reason "WaitForHostname" and the
message shows the quoted key followed by the parse error. -/
theorem gate_reason_and_message_witness :
    (waitForHostnameAdmitHandler.Admit (fun s => "\"" ++ s ++ "\"")
        ⟨{ ObjectMeta := { Annotations := some [( WaitForHostnameAnnotation, "not-a-bool")] }
           Status := { Phase := PodPending } }⟩).Reason = "WaitForHostname"
    ∧ (waitForHostnameAdmitHandler.Admit (fun s => "\"" ++ s ++ "\"")
        ⟨{ ObjectMeta := { Annotations := some [( WaitForHostnameAnnotation, "not-a-bool")] }
           Status := { Phase := PodPending } }⟩).Message =
      "Error parsing value for annotation \"naming.tess.io/wait-for-hostname\": strconv.ParseBool: parsing \"not-a-bool\": invalid syntax" :=
  ⟨(gate_reason_and_message (fun s => "\"" ++ s ++ "\"")
      ⟨{ ObjectMeta := { Annotations := some [( WaitForHostnameAnnotation, "not-a-bool")] }
         Status := { Phase := PodPending } }⟩).1 rfl,
    ((gate_reason_and_message (fun s => "\"" ++ s ++ "\"")
      ⟨{ ObjectMeta := { Annotations := some [( WaitForHostnameAnnotation, "not-a-bool")] }
         Status := { Phase := PodPending } }⟩).2.2.1
      [( WaitForHostnameAnnotation, "not-a-bool")] "not-a-bool"
      ⟨"ParseBool", "not-a-bool", strconv.ErrSyntax⟩ rfl rfl rfl rfl).2.2.trans (by decide)⟩

/-! ## Properties of the hostname-sync mutator -/

/-- A string has length zero exactly when it is the empty string. -/
theorem String.length_zero_iff_empty (s : String) : s.length = 0 ↔ s = "" := by
  constructor
  · intro h
    apply String.ext
    exact List.length_eq_zero.mp h
  · intro h
    rw [h]
    rfl

/-- Mutator on a request that the resource filter turns away. -/
theorem sync_filtered (GenerateName : String → String) (attributes : admission.Attributes)
    (h : attributes.subresource ≠ "" ∨ attributes.resource.GroupResource ≠ api.Resource "pods") :
    hostnameSync.Admit GenerateName attributes =
      { err := none, object := attributes.object, generated := [] } := by
  unfold hostnameSync.Admit
  rw [if_pos]
  · rfl
  · rcases h with h | h
    · exact Or.inl (fun hl => h ((String.length_zero_iff_empty _).mp hl))
    · exact Or.inr h

/-- Mutator on a pods request whose object is not a pod. -/
theorem sync_non_pod (GenerateName : String → String) (attributes : admission.Attributes)
    (kind : String) (hS : attributes.subresource = "")
    (hR : attributes.resource.GroupResource = api.Resource "pods")
    (hO : attributes.object = .other kind) :
    hostnameSync.Admit GenerateName attributes =
      { err := some (.NewBadRequest
          "Resource was marked with kind Pod but was unable to be converted")
        object := .other kind, generated := [] } := by
  unfold hostnameSync.Admit
  rw [if_neg]
  · simp only [admission.Attributes.GetObject, hO]
  · simp [admission.Attributes.GetSubresource, admission.Attributes.GetResource, hS, hR]

/-- Mutator on a pods request carrying a pod: the outcome as a function of the pod. -/
theorem sync_pod (GenerateName : String → String) (attributes : admission.Attributes)
    (pod : Pod) (hS : attributes.subresource = "")
    (hR : attributes.resource.GroupResource = api.Resource "pods")
    (hO : attributes.object = .pod pod) :
    hostnameSync.Admit GenerateName attributes =
      if pod.Spec.Subdomain = "" ∨ pod.Spec.Hostname ≠ "" then
        { err := none, object := .pod pod, generated := [] }
      else
        match pod.ObjectMeta.Annotations with
        | none => { err := none, object := .pod pod, generated := [] }
        | some ann =>
          match ann.lookup Annotation with
          | none => { err := none, object := .pod pod, generated := [] }
          | some v =>
            match strconv.ParseBool v with
            | .error _ =>
              { err := some (.Errorf "could not parse annotation: %q" [.str Annotation])
                object := .pod pod, generated := [] }
            | .ok false => { err := none, object := .pod pod, generated := [] }
            | .ok true =>
              if pod.ObjectMeta.Name = "" then
                if pod.ObjectMeta.GenerateName = "" then
                  { err := some (.Errorf
                      "no name from which to generate hostname for pod %v" [.pod pod])
                    object := .pod pod, generated := [] }
                else
                  { err := none
                    object := .pod { pod with
                      ObjectMeta := { pod.ObjectMeta with
                        Name := GenerateName pod.ObjectMeta.GenerateName }
                      Spec := { pod.Spec with
                        Hostname := GenerateName pod.ObjectMeta.GenerateName } }
                    generated := [pod.ObjectMeta.GenerateName] }
              else
                { err := none
                  object := .pod { pod with
                    Spec := { pod.Spec with Hostname := pod.ObjectMeta.Name } }
                  generated := [] } := by
  unfold hostnameSync.Admit
  rw [if_neg (by simp [admission.Attributes.GetSubresource,
    admission.Attributes.GetResource, hS, hR])]
  simp only [admission.Attributes.GetObject, hO, meta.Accessor]
  by_cases hN : pod.Spec.Subdomain = "" ∨ pod.Spec.Hostname ≠ ""
  · rw [if_pos hN, if_pos hN]
  · rw [if_neg hN, if_neg hN]
    cases pod.ObjectMeta.Annotations with
    | none => rfl
    | some ann =>
      simp only
      cases hK : ann.lookup Annotation with
      | none => simp [GoMap.index_of_lookup_none ann _ hK]
      | some v =>
        simp only [GoMap.index_of_lookup ann _ v hK]
        rcases strconv.ParseBool_cases v with h | h | h <;> rw [h] <;>
          simp [String.length_zero_iff_empty]

/-- C5: on a pods request without subresource (a create request in particular) whose pod
has a non-empty `metadata.name`, a non-empty `spec.subdomain`, an empty `spec.hostname` and
a sync annotation that parses as true, the mutator returns no error, leaves
`metadata.name` as it is, sets `spec.hostname` to it, changes nothing else and does not
consult the name generator. -/
theorem sync_uses_name (GenerateName : String → String) (attributes : admission.Attributes)
    (pod : Pod) (ann : GoMap) (v : String)
    (hS : attributes.subresource = "")
    (hR : attributes.resource.GroupResource = api.Resource "pods")
    (hO : attributes.object = .pod pod)
    (hN : pod.ObjectMeta.Name ≠ "") (hD : pod.Spec.Subdomain ≠ "")
    (hH : pod.Spec.Hostname = "")
    (hA : pod.ObjectMeta.Annotations = some ann) (hK : ann.lookup Annotation = some v)
    (hT : strconv.ParseBool v = .ok true) :
    (hostnameSync.Admit GenerateName attributes).err = none
    ∧ (hostnameSync.Admit GenerateName attributes).generated = []
    ∧ ∃ pod', (hostnameSync.Admit GenerateName attributes).object = .pod pod'
      ∧ pod'.ObjectMeta.Name = pod.ObjectMeta.Name
      ∧ pod'.Spec.Hostname = pod.ObjectMeta.Name
      ∧ pod' = { pod with Spec := { pod.Spec with Hostname := pod.ObjectMeta.Name } } := by
  have run : hostnameSync.Admit GenerateName attributes =
      { err := none
        object := .pod { pod with Spec := { pod.Spec with Hostname := pod.ObjectMeta.Name } }
        generated := [] } := by
    rw [sync_pod GenerateName attributes pod hS hR hO, if_neg (by simp [hD, hH]), hA]
    simp [hK, hT, hN]
  rw [run]
  exact ⟨rfl, rfl, _, rfl, rfl, rfl, rfl⟩

/-- C5, at the request of `TestAdmissionUseName`: name "abc", subdomain "sub", sync
annotation "true", a create on pods. -/
theorem sync_uses_name_witness :
    (hostnameSync.Admit suffixGenerator (createPodRequest
      { ObjectMeta := { Name := "abc", Namespace := "test"
                        Annotations := some [( Annotation, "true")] }
        Spec := { Subdomain := "sub" } })).err = none
    ∧ (hostnameSync.Admit suffixGenerator (createPodRequest
      { ObjectMeta := { Name := "abc", Namespace := "test"
                        Annotations := some [( Annotation, "true")] }
        Spec := { Subdomain := "sub" } })).generated = []
    ∧ ∃ pod', (hostnameSync.Admit suffixGenerator (createPodRequest
      { ObjectMeta := { Name := "abc", Namespace := "test"
                        Annotations := some [( Annotation, "true")] }
        Spec := { Subdomain := "sub" } })).object = .pod pod'
      ∧ pod'.ObjectMeta.Name = "abc"
      ∧ pod'.Spec.Hostname = "abc"
      ∧ pod' =
          { ObjectMeta := { Name := "abc", Namespace := "test"
                            Annotations := some [( Annotation, "true")] }
            Spec := { Hostname := "abc", Subdomain := "sub" } } :=
  sync_uses_name suffixGenerator
    (createPodRequest
      { ObjectMeta := { Name := "abc", Namespace := "test"
                        Annotations := some [( Annotation, "true")] }
        Spec := { Subdomain := "sub" } })
    { ObjectMeta := { Name := "abc", Namespace := "test"
                      Annotations := some [( Annotation, "true")] }
      Spec := { Subdomain := "sub" } }
    [( Annotation, "true")] "true" rfl rfl rfl (by decide) (by decide) rfl rfl rfl rfl

/-- C6, amended: on a pods request without subresource whose pod has an empty `metadata.name`, a
non-empty `metadata.generateName` g, a non-empty `spec.subdomain`, an empty `spec.hostname`
and a sync annotation that parses as true, the mutator returns no error, calls the
generator once, on g, sets `metadata.name` to the name it returns and `spec.hostname` to
that same name, so that afterwards `spec.hostname` equals `metadata.name`; and when the
generated name begins with g, so does `metadata.name`. -/
theorem sync_generates_name (GenerateName : String → String)
    (attributes : admission.Attributes) (pod : Pod) (ann : GoMap) (v : String)
    (hS : attributes.subresource = "")
    (hR : attributes.resource.GroupResource = api.Resource "pods")
    (hO : attributes.object = .pod pod)
    (hN : pod.ObjectMeta.Name = "") (hG : pod.ObjectMeta.GenerateName ≠ "")
    (hD : pod.Spec.Subdomain ≠ "") (hH : pod.Spec.Hostname = "")
    (hA : pod.ObjectMeta.Annotations = some ann) (hK : ann.lookup Annotation = some v)
    (hT : strconv.ParseBool v = .ok true) :
    (hostnameSync.Admit GenerateName attributes).err = none
    ∧ (hostnameSync.Admit GenerateName attributes).generated = [pod.ObjectMeta.GenerateName]
    ∧ ∃ pod', (hostnameSync.Admit GenerateName attributes).object = .pod pod'
      ∧ pod'.ObjectMeta.Name = GenerateName pod.ObjectMeta.GenerateName
      ∧ pod'.Spec.Hostname = GenerateName pod.ObjectMeta.GenerateName
      ∧ pod'.Spec.Hostname = pod'.ObjectMeta.Name
      ∧ ((∀ base : String, ∃ suffix : String, GenerateName base = base ++ suffix) →
          ∃ suffix : String, pod'.ObjectMeta.Name = pod.ObjectMeta.GenerateName ++ suffix)
      ∧ pod' = { pod with
          ObjectMeta := { pod.ObjectMeta with Name := GenerateName pod.ObjectMeta.GenerateName }
          Spec := { pod.Spec with Hostname := GenerateName pod.ObjectMeta.GenerateName } } := by
  have run : hostnameSync.Admit GenerateName attributes =
      { err := none
        object := .pod { pod with
          ObjectMeta := { pod.ObjectMeta with Name := GenerateName pod.ObjectMeta.GenerateName }
          Spec := { pod.Spec with Hostname := GenerateName pod.ObjectMeta.GenerateName } }
        generated := [pod.ObjectMeta.GenerateName] } := by
    rw [sync_pod GenerateName attributes pod hS hR hO, if_neg (by simp [hD, hH]), hA]
    simp [hK, hT, hN, hG]
  rw [run]
  exact ⟨rfl, rfl, _, rfl, rfl, rfl, rfl, fun hgen => hgen pod.ObjectMeta.GenerateName, rfl⟩

/-- C6 amended, at the request of `TestAdmissionUseGenerateName`: generateName "abc-", subdomain
"sub", sync annotation "true"; with a generator that appends "x7k2p" the pod ends with
name and hostname "abc-x7k2p". -/
theorem sync_generates_name_witness :
    (hostnameSync.Admit suffixGenerator (createPodRequest
      { ObjectMeta := { GenerateName := "abc-", Namespace := "test"
                        Annotations := some [( Annotation, "true")] }
        Spec := { Subdomain := "sub" } })).err = none
    ∧ (hostnameSync.Admit suffixGenerator (createPodRequest
      { ObjectMeta := { GenerateName := "abc-", Namespace := "test"
                        Annotations := some [( Annotation, "true")] }
        Spec := { Subdomain := "sub" } })).generated = ["abc-"]
    ∧ ∃ pod', (hostnameSync.Admit suffixGenerator (createPodRequest
      { ObjectMeta := { GenerateName := "abc-", Namespace := "test"
                        Annotations := some [( Annotation, "true")] }
        Spec := { Subdomain := "sub" } })).object = .pod pod'
      ∧ pod'.ObjectMeta.Name = "abc-x7k2p"
      ∧ pod'.Spec.Hostname = "abc-x7k2p"
      ∧ pod'.Spec.Hostname = pod'.ObjectMeta.Name
      ∧ ((∀ base : String, ∃ suffix : String, suffixGenerator base = base ++ suffix) →
          ∃ suffix : String, pod'.ObjectMeta.Name = "abc-" ++ suffix)
      ∧ pod' =
          { ObjectMeta := { Name := "abc-x7k2p", GenerateName := "abc-", Namespace := "test"
                            Annotations := some [( Annotation, "true")] }
            Spec := { Hostname := "abc-x7k2p", Subdomain := "sub" } } :=
  sync_generates_name suffixGenerator
    (createPodRequest
      { ObjectMeta := { GenerateName := "abc-", Namespace := "test"
                        Annotations := some [( Annotation, "true")] }
        Spec := { Subdomain := "sub" } })
    { ObjectMeta := { GenerateName := "abc-", Namespace := "test"
                      Annotations := some [( Annotation, "true")] }
      Spec := { Subdomain := "sub" } }
    [( Annotation, "true")] "true" rfl rfl rfl rfl (by decide) (by decide) rfl rfl rfl rfl

/-- C7, amended: on a pods request without subresource whose pod has an empty `metadata.name`, an
empty `metadata.generateName`, a non-empty `spec.subdomain`, an empty `spec.hostname` and a
sync annotation that parses as true, the mutator returns the error "no name from which
to generate hostname for pod", leaves the pod (name, generateName, hostname, subdomain,
annotations and every other field) as it was, and does not call the generator. -/
theorem sync_missing_identity (GenerateName : String → String)
    (attributes : admission.Attributes) (pod : Pod) (ann : GoMap) (v : String)
    (hS : attributes.subresource = "")
    (hR : attributes.resource.GroupResource = api.Resource "pods")
    (hO : attributes.object = .pod pod)
    (hN : pod.ObjectMeta.Name = "") (hG : pod.ObjectMeta.GenerateName = "")
    (hD : pod.Spec.Subdomain ≠ "") (hH : pod.Spec.Hostname = "")
    (hA : pod.ObjectMeta.Annotations = some ann) (hK : ann.lookup Annotation = some v)
    (hT : strconv.ParseBool v = .ok true) :
    (hostnameSync.Admit GenerateName attributes).err =
        some (.Errorf "no name from which to generate hostname for pod %v" [.pod pod])
    ∧ (hostnameSync.Admit GenerateName attributes).object = .pod pod
    ∧ (hostnameSync.Admit GenerateName attributes).generated = [] := by
  have run : hostnameSync.Admit GenerateName attributes =
      { err := some (.Errorf "no name from which to generate hostname for pod %v" [.pod pod])
        object := .pod pod, generated := [] } := by
    rw [sync_pod GenerateName attributes pod hS hR hO, if_neg (by simp [hD, hH]), hA]
    simp [hK, hT, hN, hG]
  rw [run]
  exact ⟨rfl, rfl, rfl⟩

/-- C7 amended, at the request of `TestAdmissionErrOnNoNameAndNoGenerateName`. -/
theorem sync_missing_identity_witness :
    (hostnameSync.Admit suffixGenerator (createPodRequest
      { ObjectMeta := { Name := "", GenerateName := "", Namespace := "test"
                        Annotations := some [( Annotation, "true")] }
        Spec := { Subdomain := "sub" } })).err =
        some (.Errorf "no name from which to generate hostname for pod %v"
          [.pod { ObjectMeta := { Name := "", GenerateName := "", Namespace := "test"
                                  Annotations := some [( Annotation, "true")] }
                  Spec := { Subdomain := "sub" } }])
    ∧ (hostnameSync.Admit suffixGenerator (createPodRequest
      { ObjectMeta := { Name := "", GenerateName := "", Namespace := "test"
                        Annotations := some [( Annotation, "true")] }
        Spec := { Subdomain := "sub" } })).object =
        .pod { ObjectMeta := { Name := "", GenerateName := "", Namespace := "test"
                               Annotations := some [( Annotation, "true")] }
               Spec := { Subdomain := "sub" } }
    ∧ (hostnameSync.Admit suffixGenerator (createPodRequest
      { ObjectMeta := { Name := "", GenerateName := "", Namespace := "test"
                        Annotations := some [( Annotation, "true")] }
        Spec := { Subdomain := "sub" } })).generated = [] :=
  sync_missing_identity suffixGenerator
    (createPodRequest
      { ObjectMeta := { Name := "", GenerateName := "", Namespace := "test"
                        Annotations := some [( Annotation, "true")] }
        Spec := { Subdomain := "sub" } })
    { ObjectMeta := { Name := "", GenerateName := "", Namespace := "test"
                      Annotations := some [( Annotation, "true")] }
      Spec := { Subdomain := "sub" } }
    [( Annotation, "true")] "true" rfl rfl rfl rfl rfl (by decide) rfl rfl rfl rfl

/-- C8, amended: on a pods request without subresource whose pod has a non-empty `spec.subdomain`,
an empty `spec.hostname` and a sync annotation whose value does not parse as a boolean,
the mutator returns the error "could not parse annotation" and leaves the pod as it was
(hostname still empty, no name generated), whatever name and generateName are. -/
theorem sync_annotation_unparseable (GenerateName : String → String)
    (attributes : admission.Attributes) (pod : Pod) (ann : GoMap) (v : String)
    (e : strconv.NumError)
    (hS : attributes.subresource = "")
    (hR : attributes.resource.GroupResource = api.Resource "pods")
    (hO : attributes.object = .pod pod)
    (hD : pod.Spec.Subdomain ≠ "") (hH : pod.Spec.Hostname = "")
    (hA : pod.ObjectMeta.Annotations = some ann) (hK : ann.lookup Annotation = some v)
    (hE : strconv.ParseBool v = .error e) :
    (hostnameSync.Admit GenerateName attributes).err =
        some (.Errorf "could not parse annotation: %q" [.str "pod.tess.io/hostname-sync"])
    ∧ (hostnameSync.Admit GenerateName attributes).object = .pod pod
    ∧ (hostnameSync.Admit GenerateName attributes).generated = [] := by
  have run : hostnameSync.Admit GenerateName attributes =
      { err := some (.Errorf "could not parse annotation: %q" [.str Annotation])
        object := .pod pod, generated := [] } := by
    rw [sync_pod GenerateName attributes pod hS hR hO, if_neg (by simp [hD, hH]), hA]
    simp [hK, hE]
  rw [run]
  exact ⟨rfl, rfl, rfl⟩

/-- C8 amended, at the request of `TestAdmissionErrorOnAnnotationGarbage` (name "abc", value
"not true") and at a pod with neither name nor generateName. -/
theorem sync_annotation_unparseable_witness :
    ((hostnameSync.Admit suffixGenerator (createPodRequest
      { ObjectMeta := { Name := "abc", Namespace := "test"
                        Annotations := some [( Annotation, "not true")] }
        Spec := { Subdomain := "sub" } })).err =
        some (.Errorf "could not parse annotation: %q" [.str "pod.tess.io/hostname-sync"])
    ∧ (hostnameSync.Admit suffixGenerator (createPodRequest
      { ObjectMeta := { Name := "abc", Namespace := "test"
                        Annotations := some [( Annotation, "not true")] }
        Spec := { Subdomain := "sub" } })).object =
        .pod { ObjectMeta := { Name := "abc", Namespace := "test"
                               Annotations := some [( Annotation, "not true")] }
               Spec := { Subdomain := "sub" } }
    ∧ (hostnameSync.Admit suffixGenerator (createPodRequest
      { ObjectMeta := { Name := "abc", Namespace := "test"
                        Annotations := some [( Annotation, "not true")] }
        Spec := { Subdomain := "sub" } })).generated = [])
    ∧ (hostnameSync.Admit suffixGenerator (createPodRequest
      { ObjectMeta := { Annotations := some [( Annotation, "")] }
        Spec := { Subdomain := "sub" } })).err =
        some (.Errorf "could not parse annotation: %q" [.str "pod.tess.io/hostname-sync"]) :=
  ⟨sync_annotation_unparseable suffixGenerator
      (createPodRequest
        { ObjectMeta := { Name := "abc", Namespace := "test"
                          Annotations := some [( Annotation, "not true")] }
          Spec := { Subdomain := "sub" } })
      { ObjectMeta := { Name := "abc", Namespace := "test"
                        Annotations := some [( Annotation, "not true")] }
        Spec := { Subdomain := "sub" } }
      [( Annotation, "not true")] "not true" ⟨"ParseBool", "not true", strconv.ErrSyntax⟩
      rfl rfl rfl (by decide) rfl rfl rfl rfl,
    (sync_annotation_unparseable suffixGenerator
      (createPodRequest
        { ObjectMeta := { Annotations := some [( Annotation, "")] }
          Spec := { Subdomain := "sub" } })
      { ObjectMeta := { Annotations := some [( Annotation, "")] }
        Spec := { Subdomain := "sub" } }
      [( Annotation, "")] "" ⟨"ParseBool", "", strconv.ErrSyntax⟩
      rfl rfl rfl (by decide) rfl rfl rfl rfl).1⟩

/-- C9: for a pod whose `spec.hostname` is already set, or whose `spec.subdomain` is
empty, the mutator returns no error, leaves the whole pod as it was and does not call
the generator, whatever the sync annotation, the name and the generateName are, and
whatever the request's resource, subresource and operation are. -/
theorem sync_noop_hostname_or_subdomain (GenerateName : String → String)
    (attributes : admission.Attributes) (pod : Pod)
    (hO : attributes.object = .pod pod)
    (h : pod.Spec.Hostname ≠ "" ∨ pod.Spec.Subdomain = "") :
    (hostnameSync.Admit GenerateName attributes).err = none
    ∧ (hostnameSync.Admit GenerateName attributes).object = .pod pod
    ∧ (hostnameSync.Admit GenerateName attributes).generated = [] := by
  by_cases hF : attributes.subresource ≠ ""
      ∨ attributes.resource.GroupResource ≠ api.Resource "pods"
  · rw [sync_filtered GenerateName attributes hF, hO]
    exact ⟨rfl, rfl, rfl⟩
  · have hS : attributes.subresource = "" := by
      by_contra hc
      exact hF (Or.inl hc)
    have hR : attributes.resource.GroupResource = api.Resource "pods" := by
      by_contra hc
      exact hF (Or.inr hc)
    rw [sync_pod GenerateName attributes pod hS hR hO, if_pos h.symm]
    exact ⟨rfl, rfl, rfl⟩

/-- C9, at the request of `TestAdmissionIgnoreOnSetHostname` (hostname "def", sync
annotation "true"), at a pod without subdomain whose annotation does not parse, and at
a pod with a hostname, a sync annotation "true" and neither name nor generateName. -/
theorem sync_noop_hostname_or_subdomain_witness :
    ((hostnameSync.Admit suffixGenerator (createPodRequest
      { ObjectMeta := { Name := "abc", Namespace := "test"
                        Annotations := some [( Annotation, "true")] }
        Spec := { Hostname := "def", Subdomain := "sub" } })).err = none
    ∧ (hostnameSync.Admit suffixGenerator (createPodRequest
      { ObjectMeta := { Name := "abc", Namespace := "test"
                        Annotations := some [( Annotation, "true")] }
        Spec := { Hostname := "def", Subdomain := "sub" } })).object =
        .pod { ObjectMeta := { Name := "abc", Namespace := "test"
                               Annotations := some [( Annotation, "true")] }
               Spec := { Hostname := "def", Subdomain := "sub" } }
    ∧ (hostnameSync.Admit suffixGenerator (createPodRequest
      { ObjectMeta := { Name := "abc", Namespace := "test"
                        Annotations := some [( Annotation, "true")] }
        Spec := { Hostname := "def", Subdomain := "sub" } })).generated = [])
    ∧ (hostnameSync.Admit suffixGenerator (createPodRequest
      { ObjectMeta := { Name := "abc", Annotations := some [( Annotation, "not true")] }
        Spec := { Subdomain := "" } })).err = none
    ∧ (hostnameSync.Admit suffixGenerator (createPodRequest
      { ObjectMeta := { Annotations := some [( Annotation, "true")] }
        Spec := { Hostname := "def", Subdomain := "sub" } })).err = none :=
  ⟨sync_noop_hostname_or_subdomain suffixGenerator
      (createPodRequest
        { ObjectMeta := { Name := "abc", Namespace := "test"
                          Annotations := some [( Annotation, "true")] }
          Spec := { Hostname := "def", Subdomain := "sub" } })
      { ObjectMeta := { Name := "abc", Namespace := "test"
                        Annotations := some [( Annotation, "true")] }
        Spec := { Hostname := "def", Subdomain := "sub" } }
      rfl (Or.inl (by decide)),
    (sync_noop_hostname_or_subdomain suffixGenerator
      (createPodRequest
        { ObjectMeta := { Name := "abc", Annotations := some [( Annotation, "not true")] }
          Spec := { Subdomain := "" } })
      { ObjectMeta := { Name := "abc", Annotations := some [( Annotation, "not true")] }
        Spec := { Subdomain := "" } }
      rfl (Or.inr rfl)).1,
    (sync_noop_hostname_or_subdomain suffixGenerator
      (createPodRequest
        { ObjectMeta := { Annotations := some [( Annotation, "true")] }
          Spec := { Hostname := "def", Subdomain := "sub" } })
      { ObjectMeta := { Annotations := some [( Annotation, "true")] }
        Spec := { Hostname := "def", Subdomain := "sub" } }
      rfl (Or.inl (by decide))).1⟩

/-- C10: for a pod with a non-empty `spec.subdomain` and an empty `spec.hostname` whose
annotation map is nil, or lacks the key "pod.tess.io/hostname-sync", or binds it to a
value that parses as false, the mutator returns no error and leaves the pod as it was:
`spec.hostname` stays empty, `metadata.name` keeps its value (also the empty one) and the
generator is not called. -/
theorem sync_noop_annotation_not_true (GenerateName : String → String)
    (attributes : admission.Attributes) (pod : Pod)
    (hO : attributes.object = .pod pod)
    (hD : pod.Spec.Subdomain ≠ "") (hH : pod.Spec.Hostname = "")
    (h : pod.ObjectMeta.Annotations = none
      ∨ ∃ ann, pod.ObjectMeta.Annotations = some ann
        ∧ (ann.lookup Annotation = none
          ∨ ∃ v, ann.lookup Annotation = some v ∧ strconv.ParseBool v = .ok false)) :
    (hostnameSync.Admit GenerateName attributes).err = none
    ∧ (hostnameSync.Admit GenerateName attributes).object = .pod pod
    ∧ (hostnameSync.Admit GenerateName attributes).generated = []
    ∧ ∃ pod', (hostnameSync.Admit GenerateName attributes).object = .pod pod'
      ∧ pod'.Spec.Hostname = ""
      ∧ pod'.ObjectMeta.Name = pod.ObjectMeta.Name := by
  have run : hostnameSync.Admit GenerateName attributes =
      { err := none, object := .pod pod, generated := [] } := by
    by_cases hF : attributes.subresource ≠ ""
        ∨ attributes.resource.GroupResource ≠ api.Resource "pods"
    · rw [sync_filtered GenerateName attributes hF, hO]
    · have hS : attributes.subresource = "" := by
        by_contra hc
        exact hF (Or.inl hc)
      have hR : attributes.resource.GroupResource = api.Resource "pods" := by
        by_contra hc
        exact hF (Or.inr hc)
      rw [sync_pod GenerateName attributes pod hS hR hO, if_neg (by simp [hD, hH])]
      rcases h with hA | ⟨ann, hA, hK | ⟨v, hK, hV⟩⟩
      · rw [hA]
      · rw [hA]
        simp [hK]
      · rw [hA]
        simp [hK, hV]
  rw [run]
  exact ⟨rfl, rfl, rfl, pod, rfl, hH, rfl⟩

/-- C10, at the requests of `TestAdmissionIgnoreOnNoAnnotations` (nil map),
`TestAdmissionIgnoreOnMissingAnnotation` (only the key "foo") and
`TestAdmissionIgnoreOnAnnotationNotTrue` (value "false"), and at a pod without a name
whose annotation is "false". -/
theorem sync_noop_annotation_not_true_witness :
    (hostnameSync.Admit suffixGenerator (createPodRequest
      { ObjectMeta := { Name := "abc", Namespace := "test" }
        Spec := { Subdomain := "sub" } })).object =
        .pod { ObjectMeta := { Name := "abc", Namespace := "test" }
               Spec := { Subdomain := "sub" } }
    ∧ (hostnameSync.Admit suffixGenerator (createPodRequest
      { ObjectMeta := { Name := "abc", Namespace := "test"
                        Annotations := some [("foo", "bar")] }
        Spec := { Subdomain := "sub" } })).object =
        .pod { ObjectMeta := { Name := "abc", Namespace := "test"
                               Annotations := some [("foo", "bar")] }
               Spec := { Subdomain := "sub" } }
    ∧ (hostnameSync.Admit suffixGenerator (createPodRequest
      { ObjectMeta := { Name := "abc", Namespace := "test"
                        Annotations := some [( Annotation, "false")] }
        Spec := { Subdomain := "sub" } })).err = none
    ∧ (hostnameSync.Admit suffixGenerator (createPodRequest
      { ObjectMeta := { GenerateName := "abc-"
                        Annotations := some [( Annotation, "false")] }
        Spec := { Subdomain := "sub" } })).object =
        .pod { ObjectMeta := { GenerateName := "abc-"
                               Annotations := some [( Annotation, "false")] }
               Spec := { Subdomain := "sub" } } :=
  ⟨(sync_noop_annotation_not_true suffixGenerator
      (createPodRequest
        { ObjectMeta := { Name := "abc", Namespace := "test" }
          Spec := { Subdomain := "sub" } })
      { ObjectMeta := { Name := "abc", Namespace := "test" }
        Spec := { Subdomain := "sub" } }
      rfl (by decide) rfl (Or.inl rfl)).2.1,
    (sync_noop_annotation_not_true suffixGenerator
      (createPodRequest
        { ObjectMeta := { Name := "abc", Namespace := "test"
                          Annotations := some [("foo", "bar")] }
          Spec := { Subdomain := "sub" } })
      { ObjectMeta := { Name := "abc", Namespace := "test"
                        Annotations := some [("foo", "bar")] }
        Spec := { Subdomain := "sub" } }
      rfl (by decide) rfl (Or.inr ⟨[("foo", "bar")], rfl, Or.inl (by decide)⟩)).2.1,
    (sync_noop_annotation_not_true suffixGenerator
      (createPodRequest
        { ObjectMeta := { Name := "abc", Namespace := "test"
                          Annotations := some [( Annotation, "false")] }
          Spec := { Subdomain := "sub" } })
      { ObjectMeta := { Name := "abc", Namespace := "test"
                        Annotations := some [( Annotation, "false")] }
        Spec := { Subdomain := "sub" } }
      rfl (by decide) rfl
      (Or.inr ⟨[( Annotation, "false")], rfl, Or.inr ⟨"false", rfl, rfl⟩⟩)).1,
    (sync_noop_annotation_not_true suffixGenerator
      (createPodRequest
        { ObjectMeta := { GenerateName := "abc-"
                          Annotations := some [( Annotation, "false")] }
          Spec := { Subdomain := "sub" } })
      { ObjectMeta := { GenerateName := "abc-"
                        Annotations := some [( Annotation, "false")] }
        Spec := { Subdomain := "sub" } }
      rfl (by decide) rfl
      (Or.inr ⟨[( Annotation, "false")], rfl, Or.inr ⟨"false", rfl, rfl⟩⟩)).2.1⟩

/-! ## Invariant, filters and error behaviour of the mutator -/

/-- C11 fails as stated: at the request of `TestAdmissionIgnoreOnNoAnnotations` (name
"abc", subdomain "sub", empty hostname, nil annotations) the mutator returns no error and
leaves `spec.hostname` empty, which differs from `metadata.name`. -/
theorem sync_hostname_matches_name_counterexample :
    (hostnameSync.Admit suffixGenerator (createPodRequest
      { ObjectMeta := { Name := "abc", Namespace := "test" }
        Spec := { Subdomain := "sub" } })).err = none
    ∧ (hostnameSync.Admit suffixGenerator (createPodRequest
      { ObjectMeta := { Name := "abc", Namespace := "test" }
        Spec := { Subdomain := "sub" } })).object =
        .pod { ObjectMeta := { Name := "abc", Namespace := "test" }
               Spec := { Hostname := "", Subdomain := "sub" } }
    ∧ ¬ ∃ pod', (hostnameSync.Admit suffixGenerator (createPodRequest
      { ObjectMeta := { Name := "abc", Namespace := "test" }
        Spec := { Subdomain := "sub" } })).object = .pod pod'
      ∧ pod'.Spec.Hostname = pod'.ObjectMeta.Name := by
  refine ⟨by decide, by decide, ?_⟩
  rintro ⟨pod', hobj, heq⟩
  have hrun : (hostnameSync.Admit suffixGenerator (createPodRequest
      { ObjectMeta := { Name := "abc", Namespace := "test" }
        Spec := { Subdomain := "sub" } })).object =
        .pod { ObjectMeta := { Name := "abc", Namespace := "test" }
               Spec := { Hostname := "", Subdomain := "sub" } } := by decide
  rw [hrun] at hobj
  cases hobj
  exact absurd heq (by decide)

/-- C11, amended: after an error-free run of the mutator on a pods request without
subresource whose pod has a non-empty `spec.subdomain`, had an empty `spec.hostname`
before the call and carries a sync annotation that parses as true, `spec.hostname`
equals `metadata.name` (the possibly newly generated name) at the end of the call. -/
theorem sync_hostname_matches_name (GenerateName : String → String)
    (attributes : admission.Attributes) (pod : Pod) (ann : GoMap) (v : String)
    (hS : attributes.subresource = "")
    (hR : attributes.resource.GroupResource = api.Resource "pods")
    (hO : attributes.object = .pod pod)
    (hD : pod.Spec.Subdomain ≠ "") (hH : pod.Spec.Hostname = "")
    (hA : pod.ObjectMeta.Annotations = some ann) (hK : ann.lookup Annotation = some v)
    (hT : strconv.ParseBool v = .ok true)
    (hOk : (hostnameSync.Admit GenerateName attributes).err = none) :
    ∃ pod', (hostnameSync.Admit GenerateName attributes).object = .pod pod'
      ∧ pod'.Spec.Hostname = pod'.ObjectMeta.Name
      ∧ (pod.ObjectMeta.Name ≠ "" → pod'.ObjectMeta.Name = pod.ObjectMeta.Name)
      ∧ (pod.ObjectMeta.Name = "" →
          pod'.ObjectMeta.Name = GenerateName pod.ObjectMeta.GenerateName) := by
  rw [sync_pod GenerateName attributes pod hS hR hO, if_neg (by simp [hD, hH]), hA] at hOk ⊢
  simp only [hK, hT] at hOk ⊢
  by_cases hN : pod.ObjectMeta.Name = ""
  · by_cases hG : pod.ObjectMeta.GenerateName = ""
    · simp [hN, hG] at hOk
    · simp only [if_pos hN, if_neg hG]
      exact ⟨_, rfl, rfl, fun h => absurd hN h, fun _ => rfl⟩
  · simp only [if_neg hN]
    exact ⟨_, rfl, rfl, fun _ => rfl, fun h => absurd h hN⟩

/-- C11 amended, at the requests of `TestAdmissionUseName` and
`TestAdmissionUseGenerateName`. -/
theorem sync_hostname_matches_name_witness :
    (∃ pod', (hostnameSync.Admit suffixGenerator (createPodRequest
      { ObjectMeta := { Name := "abc", Namespace := "test"
                        Annotations := some [( Annotation, "true")] }
        Spec := { Subdomain := "sub" } })).object = .pod pod'
      ∧ pod'.Spec.Hostname = pod'.ObjectMeta.Name
      ∧ ("abc" ≠ "" → pod'.ObjectMeta.Name = "abc")
      ∧ ("abc" = "" → pod'.ObjectMeta.Name = suffixGenerator ""))
    ∧ (∃ pod', (hostnameSync.Admit suffixGenerator (createPodRequest
      { ObjectMeta := { GenerateName := "abc-", Namespace := "test"
                        Annotations := some [( Annotation, "true")] }
        Spec := { Subdomain := "sub" } })).object = .pod pod'
      ∧ pod'.Spec.Hostname = pod'.ObjectMeta.Name
      ∧ ("" ≠ "" → pod'.ObjectMeta.Name = "")
      ∧ ("" = "" → pod'.ObjectMeta.Name = suffixGenerator "abc-")) :=
  ⟨sync_hostname_matches_name suffixGenerator
      (createPodRequest
        { ObjectMeta := { Name := "abc", Namespace := "test"
                          Annotations := some [( Annotation, "true")] }
          Spec := { Subdomain := "sub" } })
      { ObjectMeta := { Name := "abc", Namespace := "test"
                        Annotations := some [( Annotation, "true")] }
        Spec := { Subdomain := "sub" } }
      [( Annotation, "true")] "true" rfl rfl rfl (by decide) rfl rfl rfl rfl (by decide),
    sync_hostname_matches_name suffixGenerator
      (createPodRequest
        { ObjectMeta := { GenerateName := "abc-", Namespace := "test"
                          Annotations := some [( Annotation, "true")] }
          Spec := { Subdomain := "sub" } })
      { ObjectMeta := { GenerateName := "abc-", Namespace := "test"
                        Annotations := some [( Annotation, "true")] }
        Spec := { Subdomain := "sub" } }
      [( Annotation, "true")] "true" rfl rfl rfl (by decide) rfl rfl rfl rfl (by decide)⟩

/-- C12 fails as stated: at the third request of `TestOtherResources` (resource "pods",
no subresource, a Service as object) the object is not a pod, yet the mutator returns
the bad-request error instead of no error. -/
theorem sync_other_requests_counterexample :
    (hostnameSync.Admit suffixGenerator
      { object := .other "Service"
        resource := (api.Resource "pods").WithVersion "version"
        subresource := ""
        operation := .Create }).err =
      some (.NewBadRequest "Resource was marked with kind Pod but was unable to be converted")
    ∧ (hostnameSync.Admit suffixGenerator
      { object := .other "Service"
        resource := (api.Resource "pods").WithVersion "version"
        subresource := ""
        operation := .Create }).err ≠ none := by
  constructor <;> decide

/-- C12, amended: for every request whose subresource is non-empty or whose resource is
not the core resource "pods", the mutator returns no error and leaves the object as it
is (every field, a container's image pull policy included; `spec.hostname` and
`metadata.name` too, whatever subdomain, hostname and sync annotation are), and it does
not call the generator; for every request whose object is not a pod, the mutator leaves
the object as it is, and it returns no error exactly when the subresource is non-empty
or the resource is not "pods". -/
theorem sync_other_requests (GenerateName : String → String)
    (attributes : admission.Attributes) :
    ((attributes.subresource ≠ "" ∨ attributes.resource.Resource ≠ "pods"
        ∨ attributes.resource.Group ≠ api.GroupName) →
      (hostnameSync.Admit GenerateName attributes).err = none
      ∧ (hostnameSync.Admit GenerateName attributes).object = attributes.object
      ∧ (hostnameSync.Admit GenerateName attributes).generated = [])
    ∧ (∀ kind : String, attributes.object = .other kind →
      (hostnameSync.Admit GenerateName attributes).object = attributes.object
      ∧ (hostnameSync.Admit GenerateName attributes).generated = []
      ∧ ((hostnameSync.Admit GenerateName attributes).err = none ↔
        (attributes.subresource ≠ "" ∨ attributes.resource.Resource ≠ "pods"
          ∨ attributes.resource.Group ≠ api.GroupName))) := by
  have hfilter : (attributes.subresource ≠ "" ∨ attributes.resource.Resource ≠ "pods"
        ∨ attributes.resource.Group ≠ api.GroupName) ↔
      (attributes.subresource ≠ ""
        ∨ attributes.resource.GroupResource ≠ api.Resource "pods") := by
    have hgr : attributes.resource.GroupResource = api.Resource "pods" ↔
        attributes.resource.Group = api.GroupName ∧ attributes.resource.Resource = "pods" := by
      simp [schema.GroupVersionResource.GroupResource, api.Resource]
    simp only [ne_eq, hgr]
    constructor
    · rintro (h | h | h)
      · exact Or.inl h
      · exact Or.inr (fun hc => h hc.2)
      · exact Or.inr (fun hc => h hc.1)
    · rintro (h | h)
      · exact Or.inl h
      · by_cases hg : attributes.resource.Group = api.GroupName
        · exact Or.inr (Or.inl (fun hc => h ⟨hg, hc⟩))
        · exact Or.inr (Or.inr hg)
  refine ⟨fun hF => ?_, fun kind hO => ?_⟩
  · rw [sync_filtered GenerateName attributes (hfilter.mp hF)]
    exact ⟨rfl, rfl, rfl⟩
  · by_cases hF : attributes.subresource ≠ ""
        ∨ attributes.resource.GroupResource ≠ api.Resource "pods"
    · rw [sync_filtered GenerateName attributes hF]
      exact ⟨rfl, rfl, iff_of_true rfl (hfilter.mpr hF)⟩
    · have hS : attributes.subresource = "" := by
        by_contra hc
        exact hF (Or.inl hc)
      have hR : attributes.resource.GroupResource = api.Resource "pods" := by
        by_contra hc
        exact hF (Or.inr hc)
      rw [sync_non_pod GenerateName attributes kind hS hR hO]
      refine ⟨hO.symm, rfl, iff_of_false (by simp) (fun hc => hF (hfilter.mp hc))⟩

/-- C12 amended, at the first two requests of `TestOtherResources` (resource "foos", and
subresource "exec"), the pod carrying in addition a subdomain and the sync annotation
"true": no error, and the pod, its container's pull policy included, is as before. -/
theorem sync_other_requests_witness :
    ((hostnameSync.Admit suffixGenerator
      { object := .pod
          { ObjectMeta := { Name := "testname", Namespace := "testnamespace"
                            Annotations := some [( Annotation, "true")] }
            Spec := { Subdomain := "sub"
                      Containers := [{ Name := "ctr2", Image := "image"
                                       ImagePullPolicy := "Never" }] } }
        resource := (api.Resource "foos").WithVersion "version"
        subresource := ""
        operation := .Create }).err = none
    ∧ (hostnameSync.Admit suffixGenerator
      { object := .pod
          { ObjectMeta := { Name := "testname", Namespace := "testnamespace"
                            Annotations := some [( Annotation, "true")] }
            Spec := { Subdomain := "sub"
                      Containers := [{ Name := "ctr2", Image := "image"
                                       ImagePullPolicy := "Never" }] } }
        resource := (api.Resource "foos").WithVersion "version"
        subresource := ""
        operation := .Create }).object =
        .pod
          { ObjectMeta := { Name := "testname", Namespace := "testnamespace"
                            Annotations := some [( Annotation, "true")] }
            Spec := { Subdomain := "sub"
                      Containers := [{ Name := "ctr2", Image := "image"
                                       ImagePullPolicy := "Never" }] } })
    ∧ (hostnameSync.Admit suffixGenerator
      { object := .pod
          { ObjectMeta := { Name := "testname", Namespace := "testnamespace"
                            Annotations := some [( Annotation, "true")] }
            Spec := { Subdomain := "sub"
                      Containers := [{ Name := "ctr2", Image := "image"
                                       ImagePullPolicy := "Never" }] } }
        resource := (api.Resource "pods").WithVersion "version"
        subresource := "exec"
        operation := .Create }).object =
        .pod
          { ObjectMeta := { Name := "testname", Namespace := "testnamespace"
                            Annotations := some [( Annotation, "true")] }
            Spec := { Subdomain := "sub"
                      Containers := [{ Name := "ctr2", Image := "image"
                                       ImagePullPolicy := "Never" }] } } :=
  ⟨⟨((sync_other_requests suffixGenerator _).1 (Or.inr (Or.inl (by decide)))).1,
      ((sync_other_requests suffixGenerator _).1 (Or.inr (Or.inl (by decide)))).2.1⟩,
    ((sync_other_requests suffixGenerator _).1 (Or.inl (by decide))).2.1⟩

/-- C13: on a request for the resource "pods" without subresource whose object is not a
pod, the mutator fails with the bad-request error "Resource was marked with kind Pod
but was unable to be converted" and leaves the object alone; the same object under a
subresource or under another resource yields no error, the filter being tested first. -/
theorem sync_non_pod_object (GenerateName : String → String)
    (attributes : admission.Attributes) (kind : String)
    (hO : attributes.object = .other kind) :
    ((attributes.subresource = ""
        ∧ attributes.resource.GroupResource = api.Resource "pods") →
      (hostnameSync.Admit GenerateName attributes).err =
        some (.NewBadRequest "Resource was marked with kind Pod but was unable to be converted")
      ∧ (hostnameSync.Admit GenerateName attributes).object = .other kind)
    ∧ ((attributes.subresource ≠ ""
        ∨ attributes.resource.GroupResource ≠ api.Resource "pods") →
      (hostnameSync.Admit GenerateName attributes).err = none
      ∧ (hostnameSync.Admit GenerateName attributes).object = .other kind) := by
  refine ⟨fun h => ?_, fun h => ?_⟩
  · rw [sync_non_pod GenerateName attributes kind h.1 h.2 hO]
    exact ⟨rfl, rfl⟩
  · rw [sync_filtered GenerateName attributes h, hO]
    exact ⟨rfl, rfl⟩

/-- C13, at a Service: on "pods" it is refused, under the subresource "exec" and under
the resource "services" it passes without error. -/
theorem sync_non_pod_object_witness :
    (hostnameSync.Admit suffixGenerator
      { object := .other "Service"
        resource := (api.Resource "pods").WithVersion "version"
        subresource := ""
        operation := .Create }).err =
      some (.NewBadRequest "Resource was marked with kind Pod but was unable to be converted")
    ∧ (hostnameSync.Admit suffixGenerator
      { object := .other "Service"
        resource := (api.Resource "pods").WithVersion "version"
        subresource := "exec"
        operation := .Create }).err = none
    ∧ (hostnameSync.Admit suffixGenerator
      { object := .other "Service"
        resource := (api.Resource "services").WithVersion "version"
        subresource := ""
        operation := .Create }).err = none :=
  ⟨((sync_non_pod_object suffixGenerator
        { object := .other "Service"
          resource := (api.Resource "pods").WithVersion "version"
          subresource := ""
          operation := .Create } "Service" rfl).1 ⟨rfl, rfl⟩).1,
    ((sync_non_pod_object suffixGenerator
        { object := .other "Service"
          resource := (api.Resource "pods").WithVersion "version"
          subresource := "exec"
          operation := .Create } "Service" rfl).2 (Or.inl (by decide))).1,
    ((sync_non_pod_object suffixGenerator
        { object := .other "Service"
          resource := (api.Resource "services").WithVersion "version"
          subresource := ""
          operation := .Create } "Service" rfl).2 (Or.inr (by decide))).1⟩

/-- C14 fails as stated for `hostnameSync.Admit`: on an update request for the resource
"pods" without subresource whose pod has a name, a subdomain, an empty hostname and the
sync annotation "true", the method does not return the pod unchanged: it sets
`spec.hostname` as it does on a create request. -/
theorem sync_create_only_counterexample :
    (hostnameSync.Admit suffixGenerator
      { object := .pod
          { ObjectMeta := { Name := "abc", Namespace := "test"
                            Annotations := some [( Annotation, "true")] }
            Spec := { Subdomain := "sub" } }
        resource := (api.Resource "pods").WithVersion "version"
        subresource := ""
        operation := .Update }).object =
      .pod
        { ObjectMeta := { Name := "abc", Namespace := "test"
                          Annotations := some [( Annotation, "true")] }
          Spec := { Hostname := "abc", Subdomain := "sub" } }
    ∧ (hostnameSync.Admit suffixGenerator
      { object := .pod
          { ObjectMeta := { Name := "abc", Namespace := "test"
                            Annotations := some [( Annotation, "true")] }
            Spec := { Subdomain := "sub" } }
        resource := (api.Resource "pods").WithVersion "version"
        subresource := ""
        operation := .Update }).object ≠
      .pod
        { ObjectMeta := { Name := "abc", Namespace := "test"
                          Annotations := some [( Annotation, "true")] }
          Spec := { Subdomain := "sub" } } := by
  constructor <;> decide

/-- C14, amended: `hostnameSync.Admit` does not read the operation (its outcome is the
same under every operation); the restriction to create is carried by the plugin's
handler: the plugin built by `NewHostnameSync` handles the Create operation and no
other, so the pipeline, which runs a plugin only on operations it handles, leaves the
object unchanged and reports no error on every request whose operation is not Create
(also for a pod with a subdomain, an empty hostname and a sync annotation "true"), and
runs `Admit` on every create request. -/
theorem sync_create_only (GenerateName : String → String)
    (attributes : admission.Attributes) :
    (∀ operation : admission.Operation,
      hostnameSync.Admit GenerateName { attributes with operation := operation } =
        hostnameSync.Admit GenerateName attributes)
    ∧ (∀ operation : admission.Operation,
      NewHostnameSync.Handler.Handles operation = true ↔ operation = .Create)
    ∧ (attributes.operation ≠ .Create →
      (pipelineAdmit NewHostnameSync GenerateName attributes).err = none
      ∧ (pipelineAdmit NewHostnameSync GenerateName attributes).object = attributes.object
      ∧ (pipelineAdmit NewHostnameSync GenerateName attributes).generated = [])
    ∧ (attributes.operation = .Create →
      pipelineAdmit NewHostnameSync GenerateName attributes =
        hostnameSync.Admit GenerateName attributes) := by
  have handles : ∀ operation : admission.Operation,
      NewHostnameSync.Handler.Handles operation = true ↔ operation = .Create := by
    intro operation
    cases operation <;> decide
  refine ⟨fun operation => rfl, handles, fun hne => ?_, fun hc => ?_⟩
  · have hno : NewHostnameSync.Handler.Handles attributes.GetOperation = false := by
      cases h : NewHostnameSync.Handler.Handles attributes.GetOperation
      · rfl
      · exact absurd ((handles _).mp h) hne
    unfold pipelineAdmit
    rw [hno]
    exact ⟨rfl, rfl, rfl⟩
  · have hyes : NewHostnameSync.Handler.Handles attributes.GetOperation = true :=
      (handles _).mpr hc
    unfold pipelineAdmit
    rw [hyes]
    rfl

/-- C14 amended, at the update request on which `Admit` alone would write the hostname:
through the pipeline the pod is left as it was and no error is reported. -/
theorem sync_create_only_witness :
    (pipelineAdmit NewHostnameSync suffixGenerator
      { object := .pod
          { ObjectMeta := { Name := "abc", Namespace := "test"
                            Annotations := some [( Annotation, "true")] }
            Spec := { Subdomain := "sub" } }
        resource := (api.Resource "pods").WithVersion "version"
        subresource := ""
        operation := .Update }).err = none
    ∧ (pipelineAdmit NewHostnameSync suffixGenerator
      { object := .pod
          { ObjectMeta := { Name := "abc", Namespace := "test"
                            Annotations := some [( Annotation, "true")] }
            Spec := { Subdomain := "sub" } }
        resource := (api.Resource "pods").WithVersion "version"
        subresource := ""
        operation := .Update }).object =
      .pod
        { ObjectMeta := { Name := "abc", Namespace := "test"
                          Annotations := some [( Annotation, "true")] }
          Spec := { Subdomain := "sub" } }
    ∧ (pipelineAdmit NewHostnameSync suffixGenerator
      { object := .pod
          { ObjectMeta := { Name := "abc", Namespace := "test"
                            Annotations := some [( Annotation, "true")] }
            Spec := { Subdomain := "sub" } }
        resource := (api.Resource "pods").WithVersion "version"
        subresource := ""
        operation := .Update }).generated = [] :=
  (sync_create_only suffixGenerator
      { object := .pod
          { ObjectMeta := { Name := "abc", Namespace := "test"
                            Annotations := some [( Annotation, "true")] }
            Spec := { Subdomain := "sub" } }
        resource := (api.Resource "pods").WithVersion "version"
        subresource := ""
        operation := .Update }).2.2.1 (by decide)

/-! ## The boolean parsing rule -/

/-- A value is refused by the parser exactly when it is none of the twelve literals. -/
theorem strconv.ParseBool_error_iff (s : String) :
    (∃ e, strconv.ParseBool s = .error e) ↔
      (s ∉ ["1", "t", "T", "TRUE", "true", "True"]
        ∧ s ∉ ["0", "f", "F", "FALSE", "false", "False"]) := by
  unfold strconv.ParseBool
  simp only [List.mem_cons, List.mem_singleton, List.not_mem_nil, or_false]
  split
  · simp [*]
  · split
    · simp [*]
    · simp [*]

/-- C15 fails as stated for the mutator: a pod with a subdomain, no hostname and the sync
key bound to the empty string, carried by a create request for the subresource "exec" of
"pods", gets no error: the request filter returns before the annotation is read. -/
theorem parse_rule_shared_counterexample :
    (hostnameSync.Admit suffixGenerator
      { object := .pod
          { ObjectMeta := { Name := "abc", Namespace := "test"
                            Annotations := some [( Annotation, "")] }
            Spec := { Hostname := "", Subdomain := "sub" } }
        resource := (api.Resource "pods").WithVersion "version"
        subresource := "exec"
        operation := .Create }).err = none
    ∧ (∃ e, strconv.ParseBool "" = .error e) := by
  exact ⟨by decide, _, rfl⟩

/-- C15, amended: both hooks apply the one parser `strconv.ParseBool` to their annotation
value.  It yields true exactly for "1", "t", "T", "TRUE", "true", "True", false exactly for
"0", "f", "F", "FALSE", "false", "False", and fails on every other string, among them "",
"yes", "tRuE" and " true".  On a Pending pod whose wait key is bound to a value, the
gate's result is fixed by that classification: a true literal makes it wait for the
hostname, a false literal admits, anything else is rejected with the parse message.  On
a pods request without subresource whose pod has a subdomain, no hostname and the sync
key bound to a value, the mutator's result is fixed by the same classification: a true
literal makes it write the hostname (or fail for want of a name), a false literal is a
no-op, anything else is the parse error.  In particular a key bound to the empty string
is not treated as absent: the gate rejects and, on such a request, the mutator fails. -/
theorem parse_rule_shared (s : String) :
    (strconv.ParseBool s = .ok true ↔ s ∈ ["1", "t", "T", "TRUE", "true", "True"])
    ∧ (strconv.ParseBool s = .ok false ↔ s ∈ ["0", "f", "F", "FALSE", "false", "False"])
    ∧ (strconv.ParseBool s = .error ⟨"ParseBool", s, strconv.ErrSyntax⟩ ↔
        (s ∉ ["1", "t", "T", "TRUE", "true", "True"]
          ∧ s ∉ ["0", "f", "F", "FALSE", "false", "False"]))
    ∧ ((∃ e, strconv.ParseBool "" = .error e) ∧ (∃ e, strconv.ParseBool "yes" = .error e)
        ∧ (∃ e, strconv.ParseBool "tRuE" = .error e)
        ∧ (∃ e, strconv.ParseBool " true" = .error e))
    ∧ (∀ (Quote : String → String) (attrs : PodAdmitAttributes) (ann : GoMap),
        attrs.Pod.Status.Phase = PodPending →
        attrs.Pod.ObjectMeta.Annotations = some ann →
        ann.lookup WaitForHostnameAnnotation = some s →
        waitForHostnameAdmitHandler.Admit Quote attrs =
          if s ∈ ["1", "t", "T", "TRUE", "true", "True"] then
            if attrs.Pod.Spec.Hostname = "" then
              { Admit := false, Reason := "WaitForHostname"
                Message := "Pod spec.hostname not available yet" }
            else { Admit := true, Reason := "", Message := "" }
          else if s ∈ ["0", "f", "F", "FALSE", "false", "False"] then
            { Admit := true, Reason := "", Message := "" }
          else
            { Admit := false, Reason := "WaitForHostname"
              Message := "Error parsing value for annotation "
                ++ Quote "naming.tess.io/wait-for-hostname"
                ++ ": strconv.ParseBool: parsing " ++ Quote s ++ ": invalid syntax" })
    ∧ (∀ (GenerateName : String → String) (attributes : admission.Attributes) (pod : Pod)
        (ann : GoMap),
        attributes.subresource = "" →
        attributes.resource.GroupResource = api.Resource "pods" →
        attributes.object = .pod pod →
        pod.Spec.Subdomain ≠ "" → pod.Spec.Hostname = "" →
        pod.ObjectMeta.Annotations = some ann →
        ann.lookup Annotation = some s →
        hostnameSync.Admit GenerateName attributes =
          if s ∈ ["1", "t", "T", "TRUE", "true", "True"] then
            if pod.ObjectMeta.Name = "" then
              if pod.ObjectMeta.GenerateName = "" then
                { err := some (.Errorf
                    "no name from which to generate hostname for pod %v" [.pod pod])
                  object := .pod pod, generated := [] }
              else
                { err := none
                  object := .pod { pod with
                    ObjectMeta := { pod.ObjectMeta with
                      Name := GenerateName pod.ObjectMeta.GenerateName }
                    Spec := { pod.Spec with
                      Hostname := GenerateName pod.ObjectMeta.GenerateName } }
                  generated := [pod.ObjectMeta.GenerateName] }
            else
              { err := none
                object := .pod { pod with
                  Spec := { pod.Spec with Hostname := pod.ObjectMeta.Name } }
                generated := [] }
          else if s ∈ ["0", "f", "F", "FALSE", "false", "False"] then
            { err := none, object := .pod pod, generated := [] }
          else
            { err := some (.Errorf "could not parse annotation: %q"
                [.str "pod.tess.io/hostname-sync"])
              object := .pod pod, generated := [] })
    ∧ (∀ (Quote : String → String) (attrs : PodAdmitAttributes) (ann : GoMap),
        attrs.Pod.Status.Phase = PodPending →
        attrs.Pod.ObjectMeta.Annotations = some ann →
        ann.lookup WaitForHostnameAnnotation = some "" →
        (waitForHostnameAdmitHandler.Admit Quote attrs).Admit = false
        ∧ (waitForHostnameAdmitHandler.Admit Quote attrs).Reason = "WaitForHostname")
    ∧ (∀ (GenerateName : String → String) (attributes : admission.Attributes) (pod : Pod)
        (ann : GoMap),
        attributes.subresource = "" →
        attributes.resource.GroupResource = api.Resource "pods" →
        attributes.object = .pod pod →
        pod.Spec.Subdomain ≠ "" → pod.Spec.Hostname = "" →
        pod.ObjectMeta.Annotations = some ann →
        ann.lookup Annotation = some "" →
        (hostnameSync.Admit GenerateName attributes).err =
          some (.Errorf "could not parse annotation: %q"
            [.str "pod.tess.io/hostname-sync"])) := by
  have hT : strconv.ParseBool s = .ok true ↔ s ∈ ["1", "t", "T", "TRUE", "true", "True"] := by
    unfold strconv.ParseBool
    simp only [List.mem_cons, List.mem_singleton, List.not_mem_nil, or_false]
    split
    · simp [*]
    · split <;> simp [*]
  have hF : strconv.ParseBool s = .ok false ↔
      s ∈ ["0", "f", "F", "FALSE", "false", "False"] := by
    unfold strconv.ParseBool
    simp only [List.mem_cons, List.mem_singleton, List.not_mem_nil, or_false]
    split
    · rename_i h
      constructor
      · intro hc
        cases hc
      · intro hm
        rcases h with h | h | h | h | h | h <;> rw [h] at hm <;> exact absurd hm (by decide)
    · split <;> simp [*]
  have hE : strconv.ParseBool s = .error ⟨"ParseBool", s, strconv.ErrSyntax⟩ ↔
      (s ∉ ["1", "t", "T", "TRUE", "true", "True"]
        ∧ s ∉ ["0", "f", "F", "FALSE", "false", "False"]) := by
    rw [← strconv.ParseBool_error_iff]
    constructor
    · intro h
      exact ⟨_, h⟩
    · rintro ⟨e, he⟩
      rcases strconv.ParseBool_cases s with h | h | h
      · rw [h] at he
        cases he
      · rw [h] at he
        cases he
      · exact h
  have hnT : strconv.ParseBool s = .ok false → s ∉ ["1", "t", "T", "TRUE", "true", "True"] := by
    intro h hc
    rw [hT.mpr hc] at h
    cases h
  refine ⟨hT, hF, hE, ⟨⟨_, rfl⟩, ⟨_, rfl⟩, ⟨_, rfl⟩, ⟨_, rfl⟩⟩, ?_, ?_, ?_, ?_⟩
  · intro Quote attrs ann hP hA hK
    rw [gate_key_present Quote attrs ann s hP hA hK]
    rcases strconv.ParseBool_cases s with h | h | h
    · rw [h, if_pos (hT.mp h)]
      rfl
    · rw [h, if_neg (hnT h), if_pos (hF.mp h)]
    · rw [h, if_neg (hE.mp h).1, if_neg (hE.mp h).2]
      simp only [PodAdmitResult.mk.injEq, true_and]
      refine ⟨rfl, ?_⟩
      apply String.ext
      simp [strconv.NumError.Error, strconv.ErrSyntax, WaitForHostnameAnnotation,
        String.data_append]
  · intro GenerateName attributes pod ann hS hR hO hD hH hA hK
    rw [sync_pod GenerateName attributes pod hS hR hO, if_neg (by simp [hD, hH]), hA]
    simp only [hK]
    rcases strconv.ParseBool_cases s with h | h | h
    · rw [h, if_pos (hT.mp h)]
    · rw [h, if_neg (hnT h), if_pos (hF.mp h)]
    · rw [h, if_neg (hE.mp h).1, if_neg (hE.mp h).2]
      rfl
  · intro Quote attrs ann hP hA hK
    rw [gate_key_present Quote attrs ann "" hP hA hK]
    exact ⟨rfl, rfl⟩
  · intro GenerateName attributes pod ann hS hR hO hD hH hA hK
    rw [sync_pod GenerateName attributes pod hS hR hO, if_neg (by simp [hD, hH]), hA]
    simp only [hK]
    rfl

/-- C15 amended, at the value "TRUE" on a Pending pod without hostname (the gate waits),
at the value "0" (the mutator does nothing) and at the empty value (the mutator fails),
the last two on create requests for "pods". -/
theorem parse_rule_shared_witness :
    (waitForHostnameAdmitHandler.Admit id
        ⟨{ ObjectMeta := { Annotations := some [( WaitForHostnameAnnotation, "TRUE")] }
           Status := { Phase := PodPending } }⟩).Admit = false
    ∧ (hostnameSync.Admit suffixGenerator (createPodRequest
        { ObjectMeta := { Name := "abc", Annotations := some [( Annotation, "0")] }
          Spec := { Subdomain := "sub" } })).object =
        .pod { ObjectMeta := { Name := "abc", Annotations := some [( Annotation, "0")] }
               Spec := { Subdomain := "sub" } }
    ∧ (hostnameSync.Admit suffixGenerator (createPodRequest
        { ObjectMeta := { Name := "abc", Annotations := some [( Annotation, "")] }
          Spec := { Subdomain := "sub" } })).err =
        some (.Errorf "could not parse annotation: %q" [.str "pod.tess.io/hostname-sync"]) :=
  ⟨congrArg PodAdmitResult.Admit
      ((parse_rule_shared "TRUE").2.2.2.2.1 id
        ⟨{ ObjectMeta := { Annotations := some [( WaitForHostnameAnnotation, "TRUE")] }
           Status := { Phase := PodPending } }⟩
        [( WaitForHostnameAnnotation, "TRUE")] rfl rfl rfl),
    congrArg AdmitResult.object
      ((parse_rule_shared "0").2.2.2.2.2.1 suffixGenerator
        (createPodRequest
          { ObjectMeta := { Name := "abc", Annotations := some [( Annotation, "0")] }
            Spec := { Subdomain := "sub" } })
        { ObjectMeta := { Name := "abc", Annotations := some [( Annotation, "0")] }
          Spec := { Subdomain := "sub" } }
        [( Annotation, "0")] rfl rfl rfl (by decide) rfl rfl rfl),
    (parse_rule_shared "").2.2.2.2.2.2.2 suffixGenerator
      (createPodRequest
        { ObjectMeta := { Name := "abc", Annotations := some [( Annotation, "")] }
          Spec := { Subdomain := "sub" } })
      { ObjectMeta := { Name := "abc", Annotations := some [( Annotation, "")] }
        Spec := { Subdomain := "sub" } }
      [( Annotation, "")] rfl rfl rfl (by decide) rfl rfl rfl⟩

/-! ## Errors, atomicity, frame and idempotence of the mutator -/

/-- C16: for a pod in a pods request without subresource, the mutator returns an error
exactly when `spec.subdomain` is non-empty, `spec.hostname` is empty, the sync key is
present, and its value either does not parse or parses as true while `metadata.name` and
`metadata.generateName` are both empty; the error is then the parse error in the first
case and the missing-name error in the second, and no other error occurs; when name or
generateName is set, the mutator fails exactly on a value that does not parse. -/
theorem sync_error_iff (GenerateName : String → String) (attributes : admission.Attributes)
    (pod : Pod) (hS : attributes.subresource = "")
    (hR : attributes.resource.GroupResource = api.Resource "pods")
    (hO : attributes.object = .pod pod) :
    ((hostnameSync.Admit GenerateName attributes).err ≠ none ↔
      (pod.Spec.Subdomain ≠ "" ∧ pod.Spec.Hostname = ""
        ∧ ∃ ann v, pod.ObjectMeta.Annotations = some ann
          ∧ ann.lookup Annotation = some v
          ∧ ((∃ e, strconv.ParseBool v = .error e)
            ∨ (strconv.ParseBool v = .ok true
                ∧ pod.ObjectMeta.Name = "" ∧ pod.ObjectMeta.GenerateName = ""))))
    ∧ ((hostnameSync.Admit GenerateName attributes).err =
          some (.Errorf "could not parse annotation: %q" [.str Annotation]) ↔
        (pod.Spec.Subdomain ≠ "" ∧ pod.Spec.Hostname = ""
          ∧ ∃ ann v, pod.ObjectMeta.Annotations = some ann
            ∧ ann.lookup Annotation = some v ∧ ∃ e, strconv.ParseBool v = .error e))
    ∧ ((hostnameSync.Admit GenerateName attributes).err =
          some (.Errorf "no name from which to generate hostname for pod %v" [.pod pod]) ↔
        (pod.Spec.Subdomain ≠ "" ∧ pod.Spec.Hostname = ""
          ∧ ∃ ann v, pod.ObjectMeta.Annotations = some ann
            ∧ ann.lookup Annotation = some v ∧ strconv.ParseBool v = .ok true
            ∧ pod.ObjectMeta.Name = "" ∧ pod.ObjectMeta.GenerateName = ""))
    ∧ (∀ err, (hostnameSync.Admit GenerateName attributes).err = some err →
        err = .Errorf "could not parse annotation: %q" [.str Annotation]
        ∨ err = .Errorf "no name from which to generate hostname for pod %v" [.pod pod])
    ∧ ((pod.ObjectMeta.Name ≠ "" ∨ pod.ObjectMeta.GenerateName ≠ "") →
        ((hostnameSync.Admit GenerateName attributes).err ≠ none ↔
          (pod.Spec.Subdomain ≠ "" ∧ pod.Spec.Hostname = ""
            ∧ ∃ ann v, pod.ObjectMeta.Annotations = some ann
              ∧ ann.lookup Annotation = some v ∧ ∃ e, strconv.ParseBool v = .error e))) := by
  rw [sync_pod GenerateName attributes pod hS hR hO]
  by_cases hN : pod.Spec.Subdomain = "" ∨ pod.Spec.Hostname ≠ ""
  · rw [if_pos hN]
    have hno : ¬ (pod.Spec.Subdomain ≠ "" ∧ pod.Spec.Hostname = "") := by
      rintro ⟨h1, h2⟩
      rcases hN with h | h
      · exact h1 h
      · exact h h2
    refine ⟨?_, ?_, ?_, ?_, fun _ => ?_⟩
    · exact iff_of_false (fun h => h rfl) (fun h => hno ⟨h.1, h.2.1⟩)
    · exact iff_of_false (by simp) (fun h => hno ⟨h.1, h.2.1⟩)
    · exact iff_of_false (by simp) (fun h => hno ⟨h.1, h.2.1⟩)
    · intro err h
      simp at h
    · exact iff_of_false (fun h => h rfl) (fun h => hno ⟨h.1, h.2.1⟩)
  · rw [if_neg hN]
    have hD : pod.Spec.Subdomain ≠ "" := fun h => hN (Or.inl h)
    have hH : pod.Spec.Hostname = "" := by
      by_contra h
      exact hN (Or.inr h)
    cases hA : pod.ObjectMeta.Annotations with
    | none => simp
    | some ann =>
      cases hK : ann.lookup Annotation with
      | none => simp [hK]
      | some v =>
        rcases strconv.ParseBool_cases v with h | h | h
        · by_cases hName : pod.ObjectMeta.Name = ""
          · by_cases hG : pod.ObjectMeta.GenerateName = ""
            · simp [hK, h, hD, hH, hName, hG]
            · simp [hK, h, hD, hH, hName, hG]
          · simp [hK, h, hD, hH, hName]
        · simp [hK, h, hD, hH]
        · simp [hK, h, hD, hH]

/-- C16, at the requests of `TestAdmissionErrorOnAnnotationGarbage` (parse error),
`TestAdmissionErrOnNoNameAndNoGenerateName` (missing-name error) and
`TestAdmissionUseName` (no error). -/
theorem sync_error_iff_witness :
    (hostnameSync.Admit suffixGenerator (createPodRequest
      { ObjectMeta := { Name := "abc", Namespace := "test"
                        Annotations := some [( Annotation, "not true")] }
        Spec := { Subdomain := "sub" } })).err ≠ none
    ∧ (hostnameSync.Admit suffixGenerator (createPodRequest
      { ObjectMeta := { Namespace := "test"
                        Annotations := some [( Annotation, "true")] }
        Spec := { Subdomain := "sub" } })).err ≠ none
    ∧ ¬ (hostnameSync.Admit suffixGenerator (createPodRequest
      { ObjectMeta := { Name := "abc", Namespace := "test"
                        Annotations := some [( Annotation, "true")] }
        Spec := { Subdomain := "sub" } })).err ≠ none :=
  ⟨(sync_error_iff suffixGenerator
      (createPodRequest
        { ObjectMeta := { Name := "abc", Namespace := "test"
                          Annotations := some [( Annotation, "not true")] }
          Spec := { Subdomain := "sub" } }) _ rfl rfl rfl).1.mpr
      ⟨by decide, rfl, [( Annotation, "not true")], "not true", rfl, rfl,
        Or.inl ⟨_, rfl⟩⟩,
    (sync_error_iff suffixGenerator
      (createPodRequest
        { ObjectMeta := { Namespace := "test"
                          Annotations := some [( Annotation, "true")] }
          Spec := { Subdomain := "sub" } }) _ rfl rfl rfl).1.mpr
      ⟨by decide, rfl, [( Annotation, "true")], "true", rfl, rfl,
        Or.inr ⟨rfl, rfl, rfl⟩⟩,
    fun h => absurd
      ((sync_error_iff suffixGenerator
        (createPodRequest
          { ObjectMeta := { Name := "abc", Namespace := "test"
                            Annotations := some [( Annotation, "true")] }
            Spec := { Subdomain := "sub" } }) _ rfl rfl rfl).1.mp h)
      (by
        rintro ⟨-, -, ann, v, hA, hK, hv⟩
        cases hA
        cases hK
        rcases hv with ⟨e, he⟩ | ⟨-, hn, -⟩
        · cases he
        · exact absurd hn (by decide))⟩

/-- Mutator on any request carrying a pod whose hostname is set or whose subdomain is
empty: nothing happens. -/
theorem sync_pod_settled (GenerateName : String → String) (attributes : admission.Attributes)
    (pod : Pod) (hO : attributes.object = .pod pod)
    (h : pod.Spec.Subdomain = "" ∨ pod.Spec.Hostname ≠ "") :
    hostnameSync.Admit GenerateName attributes =
      { err := none, object := .pod pod, generated := [] } := by
  by_cases hF : attributes.subresource ≠ ""
      ∨ attributes.resource.GroupResource ≠ api.Resource "pods"
  · rw [sync_filtered GenerateName attributes hF, hO]
  · have hS : attributes.subresource = "" := by
      by_contra hc
      exact hF (Or.inl hc)
    have hR : attributes.resource.GroupResource = api.Resource "pods" := by
      by_contra hc
      exact hF (Or.inr hc)
    rw [sync_pod GenerateName attributes pod hS hR hO, if_pos h]

/-- The three outcomes of the mutator, none of which depends on the generator except
through the name it returns: the object is left alone (with or without an error); or the
given name is copied into the empty hostname; or a name is generated from generateName
and written to both the empty name and the empty hostname. -/
theorem sync_outcome (attributes : admission.Attributes) :
    (∃ err, ∀ GenerateName : String → String,
      hostnameSync.Admit GenerateName attributes =
        { err := err, object := attributes.object, generated := [] })
    ∨ (∃ pod, attributes.object = .pod pod
      ∧ pod.Spec.Subdomain ≠ "" ∧ pod.Spec.Hostname = "" ∧ pod.ObjectMeta.Name ≠ ""
      ∧ ∀ GenerateName : String → String,
        hostnameSync.Admit GenerateName attributes =
          { err := none
            object := .pod { pod with Spec := { pod.Spec with Hostname := pod.ObjectMeta.Name } }
            generated := [] })
    ∨ (∃ pod, attributes.object = .pod pod
      ∧ pod.Spec.Subdomain ≠ "" ∧ pod.Spec.Hostname = "" ∧ pod.ObjectMeta.Name = ""
      ∧ pod.ObjectMeta.GenerateName ≠ ""
      ∧ ∀ GenerateName : String → String,
        hostnameSync.Admit GenerateName attributes =
          { err := none
            object := .pod { pod with
              ObjectMeta := { pod.ObjectMeta with
                Name := GenerateName pod.ObjectMeta.GenerateName }
              Spec := { pod.Spec with
                Hostname := GenerateName pod.ObjectMeta.GenerateName } }
            generated := [pod.ObjectMeta.GenerateName] }) := by
  by_cases hF : attributes.subresource ≠ ""
      ∨ attributes.resource.GroupResource ≠ api.Resource "pods"
  · exact Or.inl ⟨none, fun g => sync_filtered g attributes hF⟩
  · have hS : attributes.subresource = "" := by
      by_contra hc
      exact hF (Or.inl hc)
    have hR : attributes.resource.GroupResource = api.Resource "pods" := by
      by_contra hc
      exact hF (Or.inr hc)
    cases hO : attributes.object with
    | other kind =>
      exact Or.inl ⟨_, fun g => sync_non_pod g attributes kind hS hR hO⟩
    | pod pod =>
      by_cases hN : pod.Spec.Subdomain = "" ∨ pod.Spec.Hostname ≠ ""
      · exact Or.inl ⟨none, fun g => sync_pod_settled g attributes pod hO hN⟩
      · have hD : pod.Spec.Subdomain ≠ "" := fun h => hN (Or.inl h)
        have hH : pod.Spec.Hostname = "" := by
          by_contra h
          exact hN (Or.inr h)
        cases hA : pod.ObjectMeta.Annotations with
        | none =>
          refine Or.inl ⟨none, fun g => ?_⟩
          rw [sync_pod g attributes pod hS hR hO, if_neg hN, hA]
        | some ann =>
          cases hK : ann.lookup Annotation with
          | none =>
            refine Or.inl ⟨none, fun g => ?_⟩
            rw [sync_pod g attributes pod hS hR hO, if_neg hN, hA]
            simp [hK]
          | some v =>
            rcases strconv.ParseBool_cases v with h | h | h
            · by_cases hName : pod.ObjectMeta.Name = ""
              · by_cases hG : pod.ObjectMeta.GenerateName = ""
                · refine Or.inl ⟨some (.Errorf
                    "no name from which to generate hostname for pod %v" [.pod pod]),
                    fun g => ?_⟩
                  rw [sync_pod g attributes pod hS hR hO, if_neg hN, hA]
                  simp only [hK, h, if_pos hName, if_pos hG]
                · refine Or.inr (Or.inr ⟨pod, rfl, hD, hH, hName, hG, fun g => ?_⟩)
                  rw [sync_pod g attributes pod hS hR hO, if_neg hN, hA]
                  simp only [hK, h, if_pos hName, if_neg hG]
              · refine Or.inr (Or.inl ⟨pod, rfl, hD, hH, hName, fun g => ?_⟩)
                rw [sync_pod g attributes pod hS hR hO, if_neg hN, hA]
                simp only [hK, h, if_neg hName]
            · refine Or.inl ⟨none, fun g => ?_⟩
              rw [sync_pod g attributes pod hS hR hO, if_neg hN, hA]
              simp only [hK, h]
            · refine Or.inl ⟨some (.Errorf "could not parse annotation: %q"
                [.str Annotation]), fun g => ?_⟩
              rw [sync_pod g attributes pod hS hR hO, if_neg hN, hA]
              simp only [hK, h]

/-- C17: whenever the mutator returns an error, whatever the request and the reason, the
object is exactly as it was before the call and the generator has not been called: every
failing check precedes the first write to `metadata.name` or `spec.hostname`. -/
theorem sync_error_leaves_object (GenerateName : String → String)
    (attributes : admission.Attributes)
    (hErr : (hostnameSync.Admit GenerateName attributes).err ≠ none) :
    (hostnameSync.Admit GenerateName attributes).object = attributes.object
    ∧ (hostnameSync.Admit GenerateName attributes).generated = [] := by
  rcases sync_outcome attributes with ⟨err, h⟩ | ⟨pod, _, _, _, _, h⟩ | ⟨pod, _, _, _, _, _, h⟩
  · rw [h GenerateName]
    exact ⟨rfl, rfl⟩
  · rw [h GenerateName] at hErr
    exact absurd rfl hErr
  · rw [h GenerateName] at hErr
    exact absurd rfl hErr

/-- C17, at the three failing requests of the tests: a value that does not parse, a pod
with neither name nor generateName, and a Service on the resource "pods". -/
theorem sync_error_leaves_object_witness :
    ((hostnameSync.Admit suffixGenerator (createPodRequest
      { ObjectMeta := { GenerateName := "abc-", Namespace := "test"
                        Annotations := some [( Annotation, "not true")] }
        Spec := { Subdomain := "sub" } })).object =
        .pod { ObjectMeta := { GenerateName := "abc-", Namespace := "test"
                               Annotations := some [( Annotation, "not true")] }
               Spec := { Subdomain := "sub" } }
      ∧ (hostnameSync.Admit suffixGenerator (createPodRequest
        { ObjectMeta := { GenerateName := "abc-", Namespace := "test"
                          Annotations := some [( Annotation, "not true")] }
          Spec := { Subdomain := "sub" } })).generated = [])
    ∧ ((hostnameSync.Admit suffixGenerator (createPodRequest
      { ObjectMeta := { Namespace := "test"
                        Annotations := some [( Annotation, "true")] }
        Spec := { Subdomain := "sub" } })).object =
        .pod { ObjectMeta := { Namespace := "test"
                               Annotations := some [( Annotation, "true")] }
               Spec := { Subdomain := "sub" } }
      ∧ (hostnameSync.Admit suffixGenerator (createPodRequest
        { ObjectMeta := { Namespace := "test"
                          Annotations := some [( Annotation, "true")] }
          Spec := { Subdomain := "sub" } })).generated = [])
    ∧ (hostnameSync.Admit suffixGenerator
        { object := .other "Service"
          resource := (api.Resource "pods").WithVersion "version"
          subresource := ""
          operation := .Create }).object = .other "Service" :=
  ⟨sync_error_leaves_object suffixGenerator
      (createPodRequest
        { ObjectMeta := { GenerateName := "abc-", Namespace := "test"
                          Annotations := some [( Annotation, "not true")] }
          Spec := { Subdomain := "sub" } }) (by decide),
    sync_error_leaves_object suffixGenerator
      (createPodRequest
        { ObjectMeta := { Namespace := "test"
                          Annotations := some [( Annotation, "true")] }
          Spec := { Subdomain := "sub" } }) (by decide),
    (sync_error_leaves_object suffixGenerator
      { object := .other "Service"
        resource := (api.Resource "pods").WithVersion "version"
        subresource := ""
        operation := .Create } (by decide)).1⟩

/-- C18: the mutator changes at most `metadata.name` and `spec.hostname`: after the call
the object is still a pod whose annotations, generateName, namespace, subdomain,
containers (image pull policies included) and status are those of the pod before the
call, whatever the outcome; `metadata.name` differs from its old value only if that was
empty, and so does `spec.hostname`. -/
theorem sync_frame (GenerateName : String → String) (attributes : admission.Attributes)
    (pod : Pod) (hO : attributes.object = .pod pod) :
    ∃ pod', (hostnameSync.Admit GenerateName attributes).object = .pod pod'
      ∧ pod' = { pod with
          ObjectMeta := { pod.ObjectMeta with Name := pod'.ObjectMeta.Name }
          Spec := { pod.Spec with Hostname := pod'.Spec.Hostname } }
      ∧ pod'.ObjectMeta.Annotations = pod.ObjectMeta.Annotations
      ∧ pod'.ObjectMeta.GenerateName = pod.ObjectMeta.GenerateName
      ∧ pod'.ObjectMeta.Namespace = pod.ObjectMeta.Namespace
      ∧ pod'.Spec.Subdomain = pod.Spec.Subdomain
      ∧ pod'.Spec.Containers = pod.Spec.Containers
      ∧ pod'.Status = pod.Status
      ∧ (pod'.ObjectMeta.Name ≠ pod.ObjectMeta.Name → pod.ObjectMeta.Name = "")
      ∧ (pod'.Spec.Hostname ≠ pod.Spec.Hostname → pod.Spec.Hostname = "") := by
  rcases sync_outcome attributes with ⟨err, h⟩ | ⟨p, hp, _, hH, _, h⟩ | ⟨p, hp, _, hH, hN, _, h⟩
  · rw [h GenerateName, hO]
    exact ⟨pod, rfl, rfl, rfl, rfl, rfl, rfl, rfl, rfl, fun hc => absurd rfl hc,
      fun hc => absurd rfl hc⟩
  · rw [hO] at hp
    cases hp
    rw [h GenerateName]
    exact ⟨_, rfl, rfl, rfl, rfl, rfl, rfl, rfl, rfl, fun hc => absurd rfl hc, fun _ => hH⟩
  · rw [hO] at hp
    cases hp
    rw [h GenerateName]
    exact ⟨_, rfl, rfl, rfl, rfl, rfl, rfl, rfl, rfl, fun _ => hN, fun _ => hH⟩

/-- C18, at the pod of `TestOtherResources` (a container with pull policy "Never") given a
generateName, a subdomain and the sync annotation "true": name and hostname are
written, everything else is as before. -/
theorem sync_frame_witness :
    ∃ pod', (hostnameSync.Admit suffixGenerator (createPodRequest
        { ObjectMeta := { GenerateName := "abc-", Namespace := "testnamespace"
                          Annotations := some [( Annotation, "true")] }
          Spec := { Subdomain := "sub"
                    Containers := [{ Name := "ctr2", Image := "image"
                                     ImagePullPolicy := "Never" }] } })).object = .pod pod'
      ∧ pod' =
        { ObjectMeta := { Name := pod'.ObjectMeta.Name, GenerateName := "abc-"
                          Namespace := "testnamespace"
                          Annotations := some [( Annotation, "true")] }
          Spec := { Hostname := pod'.Spec.Hostname, Subdomain := "sub"
                    Containers := [{ Name := "ctr2", Image := "image"
                                     ImagePullPolicy := "Never" }] } }
      ∧ pod'.ObjectMeta.Annotations = some [( Annotation, "true")]
      ∧ pod'.ObjectMeta.GenerateName = "abc-"
      ∧ pod'.ObjectMeta.Namespace = "testnamespace"
      ∧ pod'.Spec.Subdomain = "sub"
      ∧ pod'.Spec.Containers = [{ Name := "ctr2", Image := "image", ImagePullPolicy := "Never" }]
      ∧ pod'.Status = {}
      ∧ (pod'.ObjectMeta.Name ≠ "" → "" = "")
      ∧ (pod'.Spec.Hostname ≠ "" → "" = "") :=
  sync_frame suffixGenerator
    (createPodRequest
      { ObjectMeta := { GenerateName := "abc-", Namespace := "testnamespace"
                        Annotations := some [( Annotation, "true")] }
        Spec := { Subdomain := "sub"
                  Containers := [{ Name := "ctr2", Image := "image"
                                   ImagePullPolicy := "Never" }] } })
    { ObjectMeta := { GenerateName := "abc-", Namespace := "testnamespace"
                      Annotations := some [( Annotation, "true")] }
      Spec := { Subdomain := "sub"
                Containers := [{ Name := "ctr2", Image := "image"
                                 ImagePullPolicy := "Never" }] } }
    rfl

/-- C19: the mutator is idempotent on success.  If a first call returns no error, and
every name it obtained from the generator is non-empty, then a second call on the same
request carrying the resulting object (with any generator) returns no error, leaves
that object as it is and does not call the generator. -/
theorem sync_idempotent (GenerateName GenerateName2 : String → String)
    (attributes : admission.Attributes)
    (hOk : (hostnameSync.Admit GenerateName attributes).err = none)
    (hName : ∀ base ∈ (hostnameSync.Admit GenerateName attributes).generated,
      GenerateName base ≠ "") :
    (hostnameSync.Admit GenerateName2
        { attributes with
          object := (hostnameSync.Admit GenerateName attributes).object }).err = none
    ∧ (hostnameSync.Admit GenerateName2
        { attributes with
          object := (hostnameSync.Admit GenerateName attributes).object }).object =
        (hostnameSync.Admit GenerateName attributes).object
    ∧ (hostnameSync.Admit GenerateName2
        { attributes with
          object := (hostnameSync.Admit GenerateName attributes).object }).generated = [] := by
  rcases sync_outcome attributes with ⟨err, h⟩ | ⟨pod, _, _, _, hN, h⟩ | ⟨pod, _, _, _, _, _, h⟩
  · rw [h GenerateName] at hOk ⊢
    have hsame : ({ attributes with object := attributes.object } : admission.Attributes)
        = attributes := rfl
    simp only [hsame]
    rw [h GenerateName2]
    exact ⟨hOk, rfl, rfl⟩
  · rw [h GenerateName]
    simp only
    rw [sync_pod_settled GenerateName2 _ _ rfl (Or.inr (by exact hN))]
    exact ⟨rfl, rfl, rfl⟩
  · rw [h GenerateName] at hName ⊢
    have hne : GenerateName pod.ObjectMeta.GenerateName ≠ "" :=
      hName _ (List.mem_singleton.mpr rfl)
    simp only
    rw [sync_pod_settled GenerateName2 _ _ rfl (Or.inr (by exact hne))]
    exact ⟨rfl, rfl, rfl⟩

/-- C19, at the requests of `TestAdmissionUseName` and `TestAdmissionUseGenerateName`: the
second call, handed another generator, keeps name and hostname ("abc", and "abc-x7k2p")
and generates nothing. -/
theorem sync_idempotent_witness :
    ((hostnameSync.Admit (fun base => base ++ "zzzzz") (createPodRequest
        { ObjectMeta := { Name := "abc", Namespace := "test"
                          Annotations := some [( Annotation, "true")] }
          Spec := { Hostname := "abc", Subdomain := "sub" } })).object =
        .pod { ObjectMeta := { Name := "abc", Namespace := "test"
                               Annotations := some [( Annotation, "true")] }
               Spec := { Hostname := "abc", Subdomain := "sub" } })
    ∧ ((hostnameSync.Admit (fun base => base ++ "zzzzz") (createPodRequest
        { ObjectMeta := { Name := "abc-x7k2p", GenerateName := "abc-", Namespace := "test"
                          Annotations := some [( Annotation, "true")] }
          Spec := { Hostname := "abc-x7k2p", Subdomain := "sub" } })).object =
        .pod { ObjectMeta := { Name := "abc-x7k2p", GenerateName := "abc-", Namespace := "test"
                               Annotations := some [( Annotation, "true")] }
               Spec := { Hostname := "abc-x7k2p", Subdomain := "sub" } }
      ∧ (hostnameSync.Admit (fun base => base ++ "zzzzz") (createPodRequest
        { ObjectMeta := { Name := "abc-x7k2p", GenerateName := "abc-", Namespace := "test"
                          Annotations := some [( Annotation, "true")] }
          Spec := { Hostname := "abc-x7k2p", Subdomain := "sub" } })).generated = []) :=
  ⟨(sync_idempotent suffixGenerator (fun base => base ++ "zzzzz")
      (createPodRequest
        { ObjectMeta := { Name := "abc", Namespace := "test"
                          Annotations := some [( Annotation, "true")] }
          Spec := { Subdomain := "sub" } })
      (by decide) (by decide)).2.1,
    (sync_idempotent suffixGenerator (fun base => base ++ "zzzzz")
      (createPodRequest
        { ObjectMeta := { GenerateName := "abc-", Namespace := "test"
                          Annotations := some [( Annotation, "true")] }
          Spec := { Subdomain := "sub" } })
      (by decide) (by decide)).2⟩

/-! ## The mutator's output and the gate -/

/-- C20, amended: for a pod with a non-empty `metadata.name`, a non-empty `spec.subdomain`, an empty
`spec.hostname` and a sync annotation that parses as true (in a pods request without
subresource), the mutator succeeds, and the pod it produces, seen by the kubelet as a
Pending pod whose annotations bind the wait-for-hostname key to "true", is admitted by
the gate, while the pod as it was before the mutation, seen the same way, is rejected
with reason "WaitForHostname". -/
theorem sync_output_passes_gate (GenerateName Quote : String → String)
    (attributes : admission.Attributes) (pod : Pod) (ann seen : GoMap) (v : String)
    (hS : attributes.subresource = "")
    (hR : attributes.resource.GroupResource = api.Resource "pods")
    (hO : attributes.object = .pod pod)
    (hN : pod.ObjectMeta.Name ≠ "") (hD : pod.Spec.Subdomain ≠ "")
    (hH : pod.Spec.Hostname = "")
    (hA : pod.ObjectMeta.Annotations = some ann) (hK : ann.lookup Annotation = some v)
    (hT : strconv.ParseBool v = .ok true)
    (hW : seen.lookup WaitForHostnameAnnotation = some "true") :
    (hostnameSync.Admit GenerateName attributes).err = none
    ∧ ∃ pod', (hostnameSync.Admit GenerateName attributes).object = .pod pod'
      ∧ (waitForHostnameAdmitHandler.Admit Quote
          ⟨{ pod' with
              ObjectMeta := { pod'.ObjectMeta with Annotations := some seen }
              Status := { pod'.Status with Phase := PodPending } }⟩).Admit = true
      ∧ (waitForHostnameAdmitHandler.Admit Quote
          ⟨{ pod with
              ObjectMeta := { pod.ObjectMeta with Annotations := some seen }
              Status := { pod.Status with Phase := PodPending } }⟩).Admit = false
      ∧ (waitForHostnameAdmitHandler.Admit Quote
          ⟨{ pod with
              ObjectMeta := { pod.ObjectMeta with Annotations := some seen }
              Status := { pod.Status with Phase := PodPending } }⟩).Reason = "WaitForHostname" := by
  have run : hostnameSync.Admit GenerateName attributes =
      { err := none
        object := .pod { pod with Spec := { pod.Spec with Hostname := pod.ObjectMeta.Name } }
        generated := [] } := by
    rw [sync_pod GenerateName attributes pod hS hR hO, if_neg (by simp [hD, hH]), hA]
    simp [hK, hT, hN]
  have hTrue : strconv.ParseBool "true" = .ok true := rfl
  rw [run]
  refine ⟨rfl, _, rfl, ?_, ?_, ?_⟩
  · rw [gate_key_present Quote _ seen "true" rfl rfl hW, hTrue]
    simp [hN]
  · rw [gate_key_present Quote _ seen "true" rfl rfl hW, hTrue]
    simp [hH]
  · rw [gate_key_present Quote _ seen "true" rfl rfl hW, hTrue]
    simp [hH, WaitForHostnameReason]

/-- C20 amended, at the pod of `TestAdmissionUseName`, Pending and carrying both annotations: before
the mutation the gate rejects it with reason "WaitForHostname", after it the gate
admits it. -/
theorem sync_output_passes_gate_witness :
    (hostnameSync.Admit suffixGenerator (createPodRequest
        { ObjectMeta := { Name := "abc", Namespace := "test"
                          Annotations := some [( Annotation, "true"),
                                               ( WaitForHostnameAnnotation, "true")] }
          Spec := { Subdomain := "sub" }
          Status := { Phase := PodPending } })).err = none
    ∧ ∃ pod', (hostnameSync.Admit suffixGenerator (createPodRequest
        { ObjectMeta := { Name := "abc", Namespace := "test"
                          Annotations := some [( Annotation, "true"),
                                               ( WaitForHostnameAnnotation, "true")] }
          Spec := { Subdomain := "sub" }
          Status := { Phase := PodPending } })).object = .pod pod'
      ∧ (waitForHostnameAdmitHandler.Admit id
          ⟨{ pod' with
              ObjectMeta := { pod'.ObjectMeta with
                Annotations := some [( Annotation, "true"),
                                     ( WaitForHostnameAnnotation, "true")] }
              Status := { pod'.Status with Phase := PodPending } }⟩).Admit = true
      ∧ (waitForHostnameAdmitHandler.Admit id
          ⟨{ ObjectMeta := { Name := "abc", Namespace := "test"
                             Annotations := some [( Annotation, "true"),
                                                  ( WaitForHostnameAnnotation, "true")] }
             Spec := { Subdomain := "sub" }
             Status := { Phase := PodPending } }⟩).Admit = false
      ∧ (waitForHostnameAdmitHandler.Admit id
          ⟨{ ObjectMeta := { Name := "abc", Namespace := "test"
                             Annotations := some [( Annotation, "true"),
                                                  ( WaitForHostnameAnnotation, "true")] }
             Spec := { Subdomain := "sub" }
             Status := { Phase := PodPending } }⟩).Reason = "WaitForHostname" :=
  sync_output_passes_gate suffixGenerator id
    (createPodRequest
      { ObjectMeta := { Name := "abc", Namespace := "test"
                        Annotations := some [( Annotation, "true"),
                                             ( WaitForHostnameAnnotation, "true")] }
        Spec := { Subdomain := "sub" }
        Status := { Phase := PodPending } })
    { ObjectMeta := { Name := "abc", Namespace := "test"
                      Annotations := some [( Annotation, "true"),
                                           ( WaitForHostnameAnnotation, "true")] }
      Spec := { Subdomain := "sub" }
      Status := { Phase := PodPending } }
    [( Annotation, "true"), ( WaitForHostnameAnnotation, "true")]
    [( Annotation, "true"), ( WaitForHostnameAnnotation, "true")]
    "true" rfl rfl rfl (by decide) (by decide) rfl rfl rfl rfl rfl

/-! ## Requests outside the mutator's scope

The request filter (admission.go, lines 49-52) comes before every other check, so a pod
carried by a subresource request is returned as it is, whatever it holds. -/

/-- C6 fails as stated: the pod of `TestAdmissionUseGenerateName` (empty name, generateName
"abc-", subdomain "sub", sync annotation "true"), carried by a create request for the
subresource "exec" of "pods", gets no error, but its name is not generated and its
hostname is not set, and the generator is not called. -/
theorem sync_generates_name_counterexample :
    (hostnameSync.Admit suffixGenerator
      { object := .pod
          { ObjectMeta := { GenerateName := "abc-", Namespace := "test"
                            Annotations := some [( Annotation, "true")] }
            Spec := { Subdomain := "sub" } }
        resource := (api.Resource "pods").WithVersion "version"
        subresource := "exec"
        operation := .Create }) =
      { err := none
        object := .pod
          { ObjectMeta := { Name := "", GenerateName := "abc-", Namespace := "test"
                            Annotations := some [( Annotation, "true")] }
            Spec := { Hostname := "", Subdomain := "sub" } }
        generated := [] }
    ∧ suffixGenerator "abc-" = "abc-x7k2p"
    ∧ ("" : String) ≠ suffixGenerator "abc-" := by
  refine ⟨by decide, by decide, by decide⟩

/-- C7 fails as stated: the pod of `TestAdmissionErrOnNoNameAndNoGenerateName` (neither
name nor generateName, subdomain "sub", sync annotation "true"), carried by a create
request for the subresource "exec" of "pods", gets no error. -/
theorem sync_missing_identity_counterexample :
    (hostnameSync.Admit suffixGenerator
      { object := .pod
          { ObjectMeta := { Name := "", GenerateName := "", Namespace := "test"
                            Annotations := some [( Annotation, "true")] }
            Spec := { Hostname := "", Subdomain := "sub" } }
        resource := (api.Resource "pods").WithVersion "version"
        subresource := "exec"
        operation := .Create }).err = none := by
  decide

/-- C8 fails as stated: the pod of `TestAdmissionErrorOnAnnotationGarbage` (subdomain
"sub", no hostname, sync annotation "not true", which does not parse), carried by a
create request for the subresource "exec" of "pods", gets no error. -/
theorem sync_annotation_unparseable_counterexample :
    (hostnameSync.Admit suffixGenerator
      { object := .pod
          { ObjectMeta := { Name := "abc", Namespace := "test"
                            Annotations := some [( Annotation, "not true")] }
            Spec := { Hostname := "", Subdomain := "sub" } }
        resource := (api.Resource "pods").WithVersion "version"
        subresource := "exec"
        operation := .Create }).err = none
    ∧ strconv.ParseBool "not true" = .error ⟨"ParseBool", "not true", strconv.ErrSyntax⟩ := by
  refine ⟨by decide, rfl⟩

/-- C20 fails as stated: a Pending pod with name "abc", subdomain "sub", no hostname and
both annotations "true", carried by a create request for the subresource "exec" of
"pods", passes the mutator without error and without a hostname, and the gate rejects
the pod so produced. -/
theorem sync_output_passes_gate_counterexample :
    (hostnameSync.Admit suffixGenerator
      { object := .pod
          { ObjectMeta := { Name := "abc", Namespace := "test"
                            Annotations := some [( Annotation, "true"),
                                                 ( WaitForHostnameAnnotation, "true")] }
            Spec := { Hostname := "", Subdomain := "sub" }
            Status := { Phase := PodPending } }
        resource := (api.Resource "pods").WithVersion "version"
        subresource := "exec"
        operation := .Create }) =
      { err := none
        object := .pod
          { ObjectMeta := { Name := "abc", Namespace := "test"
                            Annotations := some [( Annotation, "true"),
                                                 ( WaitForHostnameAnnotation, "true")] }
            Spec := { Hostname := "", Subdomain := "sub" }
            Status := { Phase := PodPending } }
        generated := [] }
    ∧ (waitForHostnameAdmitHandler.Admit id
        ⟨{ ObjectMeta := { Name := "abc", Namespace := "test"
                           Annotations := some [( Annotation, "true"),
                                                ( WaitForHostnameAnnotation, "true")] }
           Spec := { Hostname := "", Subdomain := "sub" }
           Status := { Phase := PodPending } }⟩).Admit = false := by
  refine ⟨by decide, by decide⟩
